import Mathlib

/-!
Verification of the liked-songs fetch/cache/export/analysis pipeline of
`src/main.py` (cobracode/spotify-tool).

The Python code is shallowly embedded: JSON-ish dicts become structures with
`Option` fields where the code uses `dict.get` defaults or where the platform
may supply `null`; exceptions become `Option` results; the filesystem, the
wall clock and the network are explicit parameters; Python string operations
(`str.split`, `str.join`, `str.strip`, `int(...)`, `str.isdigit`, f-string
zero padding, slicing) are modelled as executable functions over the
character list of a `String`, following Python's semantics.
-/

namespace SpotifyTool

/-! ## Python string primitives -/

/-- The character for a decimal digit value. -/
def digitChar (d : Nat) : Char :=
  if d = 0 then '0' else if d = 1 then '1' else if d = 2 then '2'
  else if d = 3 then '3' else if d = 4 then '4' else if d = 5 then '5'
  else if d = 6 then '6' else if d = 7 then '7' else if d = 8 then '8' else '9'

/-- Decimal digits of a natural number, most significant first, with
explicit fuel so that the recursion is structural (any fuel above n works;
natDigits fixes it). -/
def natDigitsAux : Nat → Nat → List Char
  | 0, _ => []
  | fuel + 1, n =>
    if n < 10 then [digitChar n]
    else natDigitsAux fuel (n / 10) ++ [digitChar (n % 10)]

/-- Decimal digits of a natural number, most significant first
(the rendering used by Python's str/f-strings for non-negative ints). -/
def natDigits (n : Nat) : List Char := natDigitsAux (n + 1) n

/-- Python str(n) for a natural number. -/
def pyStrNat (n : Nat) : String := ⟨natDigits n⟩

/-- Python str(n) for an int. -/
def pyStrInt (n : Int) : String :=
  if n < 0 then "-" ++ pyStrNat (-n).toNat else pyStrNat n.toNat

/-- Python f"\x7bn:02d\x7d": zero-pad to width two (sign included in the width). -/
def pyFormat02d (n : Int) : String :=
  if n < 0 then "-" ++ pyStrNat (-n).toNat
  else if n < 10 then "0" ++ pyStrNat n.toNat
  else pyStrNat n.toNat

/-- Numeric value of a list of decimal digit characters. -/
def digitsVal (cs : List Char) : Nat :=
  cs.foldl (fun acc c => 10 * acc + (c.toNat - 48)) 0

/-- Python str.isdigit(): non-empty and every character a decimal digit. -/
def pyIsDigits (s : String) : Bool :=
  !s.data.isEmpty && s.data.all Char.isDigit

/-- Python str.strip() on a character list: drop whitespace from both ends. -/
def stripList (cs : List Char) : List Char :=
  ((cs.dropWhile Char.isWhitespace).reverse.dropWhile Char.isWhitespace).reverse

/-- Python str.strip(). -/
def pyStrip (s : String) : String := ⟨stripList s.data⟩

/-- Python int(s): optional surrounding whitespace, optional sign, then
decimal digits; `none` models the ValueError raised on anything else. -/
def pyInt? (s : String) : Option Int :=
  let t := stripList s.data
  let neg : Bool := t.head? = some '-'
  let ds := if t.head? = some '-' ∨ t.head? = some '+' then t.tail else t
  if !ds.isEmpty && ds.all Char.isDigit then
    some (if neg then -(digitsVal ds : Int) else (digitsVal ds : Int))
  else none

/-- Python s.split(sep) for a single-character separator, on character lists.
Splitting the empty list yields [[]], like "".split(",") == ['']. -/
def splitList (sep : Char) : List Char → List (List Char)
  | [] => [[]]
  | c :: cs =>
    if c = sep then [] :: splitList sep cs
    else
      match splitList sep cs with
      | [] => [[c]]
      | r :: rs => (c :: r) :: rs

/-- Python s.split(sep) for a single-character separator. -/
def pySplit (s : String) (sep : Char) : List String :=
  (splitList sep s.data).map (fun cs => ⟨cs⟩)

/-- Python sep.join(parts) on character lists. -/
def joinList (sep : List Char) : List (List Char) → List Char
  | [] => []
  | [p] => p
  | p :: ps => p ++ sep ++ joinList sep ps

/-- Python sep.join(parts). -/
def pyJoin (sep : String) (parts : List String) : String :=
  ⟨joinList sep.data (parts.map (·.data))⟩

/-- Python c in s, for a single character. -/
def pyContainsChar (s : String) (c : Char) : Bool := s.data.contains c

/-- Python s[:n]. -/
def pyTake (s : String) (n : Nat) : String := ⟨s.data.take n⟩

/-- Python s[a:b] for 0 ≤ a ≤ b. -/
def pySlice (s : String) (a b : Nat) : String := ⟨(s.data.drop a).take (b - a)⟩

/-- Python s.replace(old, new) for single characters. -/
def pyReplaceChar (s : String) (old new : Char) : String :=
  ⟨s.data.map fun c => if c = old then new else c⟩

/-- Split a character list at the first occurrence of `sep` (non-empty):
the part before it and the part after it, or `none` when `sep` does not
occur. -/
def splitFirst (sep : List Char) : List Char → Option (List Char × List Char)
  | [] => none
  | c :: cs =>
    if sep.isPrefixOf (c :: cs) then some ([], (c :: cs).drop sep.length)
    else (splitFirst sep cs).map fun p => (c :: p.1, p.2)

/-- Python s.split(sep) for a non-empty separator string, with fuel
(s.length + 1 always suffices since each found separator is consumed). -/
def splitOnListAux (sep : List Char) : Nat → List Char → List (List Char)
  | 0, cs => [cs]
  | fuel + 1, cs =>
    match splitFirst sep cs with
    | none => [cs]
    | some (a, b) => a :: splitOnListAux sep fuel b

/-- Python s.split(sep) for a non-empty separator string. -/
def pySplitOnStr (s sep : String) : List String :=
  (splitOnListAux sep.data (s.data.length + 1) s.data).map fun cs => ⟨cs⟩

/-- Python s.replace(old, new): replace every non-overlapping occurrence,
left to right, with fuel as above. -/
def replaceListAux (pat rep : List Char) : Nat → List Char → List Char
  | 0, cs => cs
  | fuel + 1, cs =>
    match splitFirst pat cs with
    | none => cs
    | some (a, b) => a ++ rep ++ replaceListAux pat rep fuel b

/-- Python s.replace(old, new) for a non-empty pattern string. -/
def pyReplaceStr (s pat rep : String) : String :=
  ⟨replaceListAux pat.data rep.data (s.data.length + 1) s.data⟩

/-! ## Data model

Track records and liked-song entries as produced by the platform API and
re-created by the cache reader (src/main.py lines 60-71). Fields read with
`dict.get` defaults, or whose value may be JSON null, are `Option`s. -/

structure Artist where
  name : String
  id : Option String := none
deriving Repr, DecidableEq

structure Album where
  name : String
  release_date : Option String := none
deriving Repr, DecidableEq

structure Track where
  id : Option String := none
  name : String
  artists : List Artist
  album : Album
  duration_ms : Option Int := none
  popularity : Option Int := none
  spotify_url : Option String := none
deriving Repr, DecidableEq

/-- A liked-song entry: a track plus the 'added_at' timestamp. -/
structure Entry where
  track : Track
  added_at : String
deriving Repr, DecidableEq

/-! ## CSV export (export_songs_to_csv, src/main.py lines 201-235)

The csv module faithfully round-trips individual cells, so the file is
modelled at the level of its rows: a written CSV is a list of rows, each a
list of cell strings. -/

/-- Python ', '.join(artist['name'] for artist in track['artists']). -/
def joined_artists (artists : List Artist) : String :=
  pyJoin ", " (artists.map (·.name))

/-- Duration formatted mm:ss from milliseconds (lines 219-222):
minutes = ms // 60000, seconds = (ms % 60000) // 1000, both "%02d". -/
def duration_formatted (duration_ms : Int) : String :=
  pyFormat02d (Int.fdiv duration_ms 60000) ++ ":" ++
    pyFormat02d (Int.fdiv (Int.fmod duration_ms 60000) 1000)

/-- The fixed header row written by export and by the cache writer (line 207). -/
def csv_header : List String :=
  ["Song Number", "Artist", "Title", "Duration", "Popularity", "Spotify URL",
   "Liked Date", "Album", "Track ID"]

/-- One data row of the export (lines 210-230); `i` is the 1-based position. -/
def export_row (i : Nat) (item : Entry) : List String :=
  [pyStrNat i,
   joined_artists item.track.artists,
   item.track.name,
   duration_formatted (item.track.duration_ms.getD 0),
   pyStrInt (item.track.popularity.getD 0),
   item.track.spotify_url.getD "",
   pyTake item.added_at 10,
   item.track.album.name,
   item.track.id.getD ""]

/-- export_songs_to_csv: the row table written to the CSV file. -/
def export_songs_to_csv (liked_songs : List Entry) : List (List String) :=
  csv_header :: (liked_songs.enum.map fun p => export_row (p.1 + 1) p.2)

/-! ## Cache store (src/main.py lines 23-119) -/

/-- A file on disk: its name and its filesystem modification time. -/
structure FileInfo where
  name : String
  mtime : Nat
deriving Repr, DecidableEq

/-- Whether a file name matches the glob pattern pre*suf (the username here
is taken literally, as it is for usernames without glob metacharacters). -/
def glob_match (pre suf name : String) : Bool :=
  pre.data.isPrefixOf name.data && suf.data.isSuffixOf (name.data.drop pre.data.length)

/-- get_latest_cache_file (lines 28-46): glob for the current .csv pattern and
the legacy .txt pattern, concatenate, sort by modification time newest first
(Python's stable sort with reverse=True), and take the first; None when no
file matches. The directory listing order of glob is OS-dependent, so it is
modelled as the order of `fs`. The chosen file (rather than just its name)
is returned so that theorems can speak about its modification time. -/
def get_latest_cache_file (username : String) (fs : List FileInfo) : Option FileInfo :=
  let csv_files := fs.filter fun f => glob_match (username ++ "-liked-songs-") ".csv" f.name
  let txt_files := fs.filter fun f => glob_match (username ++ "-liked-songs-") ".txt" f.name
  let cache_files := csv_files ++ txt_files
  if cache_files.isEmpty then none
  else (cache_files.insertionSort fun a b => b.mtime ≤ a.mtime).head?

/-- Row mapping of load_liked_songs_from_cache (lines 59-72): convert one CSV
row (a header-name → cell association list, as produced by csv.DictReader)
back to the platform track shape. Missing required keys (KeyError) and
failing int() conversions (ValueError) escape to the enclosing handler,
modelled by a `none` result. -/
def row_to_track_data (row : List (String × String)) : Option Entry := do
  let title ← row.lookup "Title"
  let artistField ← row.lookup "Artist"
  let durationField ← row.lookup "Duration"
  let popularityField ← row.lookup "Popularity"
  let urlField ← row.lookup "Spotify URL"
  let likedDate ← row.lookup "Liked Date"
  let duration_ms ←
    if pyContainsChar durationField ':' then do
      let parts := pySplit durationField ':'
      let m ← pyInt? (parts.getD 0 "")
      let s ← pyInt? (parts.getD 1 "")
      pure ((m * 60 + s) * 1000)
    else pure 0
  let popularity : Int :=
    if pyIsDigits popularityField then (digitsVal popularityField.data : Int) else 0
  pure
    { track :=
        { id := some ((row.lookup "Track ID").getD "")
          name := title
          artists := (pySplit artistField ',').map fun a => { name := pyStrip a }
          album := { name := (row.lookup "Album").getD "Unknown" }
          duration_ms := some duration_ms
          popularity := some popularity
          spotify_url := some urlField }
      added_at := likedDate ++ "T00:00:00Z" }

/-- csv.DictReader: the first row of the table is the header, and every later
row is read as a header-name → cell mapping. -/
def dict_reader (table : List (List String)) : List (List (String × String)) :=
  match table with
  | [] => []
  | header :: rows => rows.map fun r => header.zip r

/-- Parse data rows in order through row_to_track_data; the first failing row
fails the whole read (the try/except wraps the entire loop). -/
def parse_rows : List (List (String × String)) → Option (List Entry)
  | [] => some []
  | row :: rest => do
    let e ← row_to_track_data row
    let es ← parse_rows rest
    pure (e :: es)

/-- The row-mapping stage of the cache reader applied to a whole CSV table. -/
def parse_cache_table (table : List (List String)) : Option (List Entry) :=
  parse_rows (dict_reader table)

/-- The cache-creation date recovered from the snapshot filename
(lines 74-76): the text after '-liked-songs-', with '.csv' removed,
reformatted to YYYY-MM-DD. -/
def cached_at_of_filename (name : String) : String :=
  let ts := pyReplaceStr ((pySplitOnStr name "-liked-songs-").getD 1 "") ".csv" ""
  pyTake ts 4 ++ "-" ++ pySlice ts 4 6 ++ "-" ++ pySlice ts 6 8

/-- load_liked_songs_from_cache (lines 48-81): find the latest snapshot,
read it (`contents` returns `none` on an I/O error), map every row back to
the track shape, and pair the result with the cache date. Any failure
anywhere yields `none`, exactly as the enclosing try/except returns None. -/
def load_liked_songs_from_cache (username : String) (fs : List FileInfo)
    (contents : String → Option (List (List String))) :
    Option (List Entry × String) := do
  let f ← get_latest_cache_file username fs
  let table ← contents f.name
  let liked_songs ← parse_cache_table table
  pure (liked_songs, cached_at_of_filename f.name)

/-- Timestamped cache filename for a user (get_cache_filename, lines 23-26);
`now` stands for datetime.now().strftime("%Y%m%d_%H%M%S"). -/
def get_cache_filename (username now : String) : String :=
  username ++ "-liked-songs-" ++ now ++ ".csv"

/-- save_liked_songs_to_cache (lines 83-119): write the same header and rows
as export_songs_to_csv to a fresh timestamped file. The filesystem outcome is
modelled by `save_ok`: on success the filename and the written row table are
returned, on an I/O error the except-branch returns `none`. -/
def save_liked_songs_to_cache (save_ok : Bool) (username now : String)
    (liked_songs : List Entry) : Option (String × List (List String)) :=
  if save_ok then
    some (get_cache_filename username now,
      csv_header :: (liked_songs.enum.map fun p => export_row (p.1 + 1) p.2))
  else none

/-! ## Pagination fetch and orchestration (load_liked_songs_data, lines 175-199) -/

/-- A call issued to the platform web API. -/
inductive ApiCall where
  | currentUser
  | savedTracks (limit offset : Nat)
deriving Repr, DecidableEq

/-- The authenticated API handle: the profile data returned by current_user()
and the paged saved-tracks endpoint (limit → offset → items). -/
structure SpotifyClient where
  display_name : String
  user_id : String
  saved_tracks : Nat → Nat → List Entry

/-- The user key derived on line 177: display name with spaces replaced by
hyphens, then '-', then the platform user id. -/
def username_of (client : SpotifyClient) : String :=
  pyReplaceChar client.display_name ' ' '-' ++ "-" ++ client.user_id

/-- The while-loop of lines 186-193, for an arbitrary paged source: request
limit=50 at the current offset, stop on an empty page, otherwise append the
items and advance the offset by 50. `fuel` bounds the iterations (the Python
loop is unbounded); the first component is `none` if fuel ran out, and the
second lists the (limit, offset) pairs requested. -/
def fetch_all_liked (source : Nat → Nat → List α) : Nat → Nat → Option (List α) × List (Nat × Nat)
  | 0, _ => (none, [])
  | fuel + 1, offset =>
    let page := source 50 offset
    if page.isEmpty then (some [], [(50, offset)])
    else
      let rest := fetch_all_liked source fuel (offset + 50)
      (rest.1.map fun items => page ++ items, (50, offset) :: rest.2)

/-- The world surrounding load_liked_songs_data: the cache directory, file
contents, whether a snapshot write would succeed, and the wall clock. -/
structure Env where
  files : List FileInfo
  contents : String → Option (List (List String))
  save_ok : Bool
  now : String

/-- load_liked_songs_data (lines 175-199). Returns the result triple
(entries, provenance note, username) — `none` only when the loop fuel ran
out — together with the list of API calls issued, in order. current_user()
is always called first (line 176). -/
def load_liked_songs_data (env : Env) (client : SpotifyClient) (fuel : Nat)
    (force_refresh : Bool) :
    Option (List Entry × String × String) × List ApiCall :=
  let username := username_of client
  let fetch_and_save : Option (List Entry × String × String) × List ApiCall :=
    let fr := fetch_all_liked client.saved_tracks fuel 0
    let apiCalls := ApiCall.currentUser :: fr.2.map fun p => ApiCall.savedTracks p.1 p.2
    match fr.1 with
    | none => (none, apiCalls)
    | some liked_songs =>
      let cache_filename :=
        (save_liked_songs_to_cache env.save_ok username env.now liked_songs).map (·.1)
      let cache_info :=
        match cache_filename with
        | some fn => " (Fresh data saved to cache: " ++ fn ++ ")"
        | none => " (Fresh data from Spotify)"
      (some (liked_songs, cache_info, username), apiCalls)
  if force_refresh then fetch_and_save
  else
    match load_liked_songs_from_cache username env.files env.contents with
    | some (liked_songs, cached_at) =>
      (some (liked_songs, " (Loaded from cache: " ++ pyTake cached_at 10 ++ ")", username),
       [ApiCall.currentUser])
    | none => fetch_and_save

/-! ## Taste analysis (analyze_music_taste, src/main.py lines 362-478)

The audio-features aggregation (lines 380-417) touches no claim and is not
modelled; the track-id and artist-id extraction of lines 370-377 feeds only
that phase and the genre fetch, so it is not modelled separately either.
The artist-genre lookups of lines 432-438 go through the artist_genres dict
built from the network (lines 419-430, batch failures leaving ids absent);
the dict with its .get default of [] is modelled as the total function
`artist_genres`. An artist id that is JSON null is looked up as None and
finds no genres. -/

/-- One step of the counting idiom d[k] = d.get(k, 0) + 1 on an
insertion-ordered association list (Python dicts preserve insertion order:
an existing key keeps its position, a new key is appended). -/
def count_incr (m : List (String × Nat)) (k : String) : List (String × Nat) :=
  if m.any fun p => p.1 = k then
    m.map fun p => if p.1 = k then (p.1, p.2 + 1) else p
  else m ++ [(k, 1)]

/-- The frequency dict of a key sequence. -/
def count_all (keys : List String) : List (String × Nat) :=
  keys.foldl count_incr []

/-- Python sorted(l, key=key, reverse=True): a stable sort, descending by
key. Any stable sort under this total preorder computes the same list;
insertionSort is used because it is stable and kernel-reducible. -/
def sorted_desc (key : α → Int) (l : List α) : List α :=
  l.insertionSort fun a b => key b ≤ key a

/-- The genre key sequence of lines 433-438: for every analyzed track, for
every artist on it, every genre the artist_genres lookup yields. -/
def genre_keys (artist_genres : String → List String) (tracks : List Entry) : List String :=
  tracks.flatMap fun t => t.track.artists.flatMap fun a =>
    match a.id with
    | some i => artist_genres i
    | none => []

/-- The artist-name key sequence of lines 444-448. -/
def artist_keys (tracks : List Entry) : List String :=
  tracks.flatMap fun t => t.track.artists.map (·.name)

/-- The album-name key sequence of lines 453-456. -/
def album_keys (tracks : List Entry) : List String :=
  tracks.map (·.track.album.name)

/-- The release-year key sequence of lines 461-466: the first four characters
of every truthy release_date (None and "" are skipped). -/
def year_keys (tracks : List Entry) : List String :=
  tracks.filterMap fun t =>
    match t.track.album.release_date with
    | some rd => if rd = "" then none else some (pyTake rd 4)
    | none => none

/-- Annotate every counted year with int(year) (line 468); `none` models the
ValueError int() raises on a non-numeric year, which escapes the analysis. -/
def annotate_years : List (String × Nat) → Option (List (Int × (String × Nat)))
  | [] => some []
  | p :: rest => do
    let y ← pyInt? p.1
    let annotated ← annotate_years rest
    pure ((y, p) :: annotated)

/-- The aggregate returned by analyze_music_taste (lines 470-478), without
the unmodelled audio_features table. -/
structure Analysis where
  top_genres : List (String × Nat)
  top_artists : List (String × Nat)
  top_albums : List (String × Nat)
  top_years : List (String × Nat)
  total_tracks_analyzed : Nat
  total_tracks : Nat
deriving Repr, DecidableEq

/-- analyze_music_taste (lines 362-478). Empty input returns None (line 365).
The genre/artist/album tables are the frequency dicts sorted by count,
descending and stable, truncated to 10. The year table is sorted by the
numeric value of the year string (line 468): int() there raises ValueError
on a non-numeric year, which escapes the function; that failure is modelled
by the `none` result. The sort by int(year) is modelled by annotating each
item with its parsed key, sorting stably by it, and projecting back. -/
def analyze_music_taste (artist_genres : String → List String)
    (tracks : List Entry) (limit : Nat) : Option Analysis :=
  if tracks.isEmpty then none
  else
    let tracks_to_analyze := tracks.take limit
    let genre_count := count_all (genre_keys artist_genres tracks_to_analyze)
    let top_genres := (sorted_desc (fun p => (p.2 : Int)) genre_count).take 10
    let artist_count := count_all (artist_keys tracks_to_analyze)
    let top_artists := (sorted_desc (fun p => (p.2 : Int)) artist_count).take 10
    let album_count := count_all (album_keys tracks_to_analyze)
    let top_albums := (sorted_desc (fun p => (p.2 : Int)) album_count).take 10
    let year_count := count_all (year_keys tracks_to_analyze)
    match annotate_years year_count with
    | none => none
    | some keyed =>
      let top_years := ((sorted_desc (fun q => q.1) keyed).map (·.2)).take 10
      some
        { top_genres := top_genres
          top_artists := top_artists
          top_albums := top_albums
          top_years := top_years
          total_tracks_analyzed := tracks_to_analyze.length
          total_tracks := tracks.length }

/-! ## Properties used to state the analysis claims -/

/-- The numeric sort key the analysis uses for a year-table item (int of the
year string; items reaching the sort always parse, so the default is inert). -/
def yearKey (p : String × Nat) : Int := (pyInt? p.1).getD 0

/-- The assertion that `m` is the frequency table of the key sequence `ks`,
with one entry per distinct key holding its occurrence count, keys listed in
first-encounter order (compared via the index of their first occurrence). -/
def FirstEncounterCounts (ks : List String) (m : List (String × Nat)) : Prop :=
  (∀ p ∈ m, p.2 = ks.count p.1) ∧
  (m.map fun p => p.1).Nodup ∧
  (∀ k, k ∈ m.map (fun p => p.1) ↔ k ∈ ks) ∧
  ((m.map fun p => p.1).Pairwise fun x y => ks.indexOf x < ks.indexOf y)

/-- The assertion that `table` is the top-10 selection of the count table
`m` by descending count: at most ten entries of `m`, in descending count
order, every omitted entry counts no more than every kept one, and entries
with tied counts keep their `m` (first-encounter) order — including across
the cut. -/
def TopTenByCount (m table : List (String × Nat)) : Prop :=
  table.length = min 10 m.length ∧
  (∀ q ∈ table, q ∈ m) ∧
  table.Pairwise (fun x y => y.2 ≤ x.2) ∧
  (∀ p ∈ m, p ∉ table → ∀ q ∈ table, p.2 ≤ q.2) ∧
  (∀ p q, [p, q].Sublist m → q.2 ≤ p.2 → q ∈ table → [p, q].Sublist table)

/-- The assertion that `table` is the top-10 selection of the count table
`m` by descending numeric year — the ordering the code actually applies to
the release-year table. -/
def TopTenByYear (m table : List (String × Nat)) : Prop :=
  table.length = min 10 m.length ∧
  (∀ q ∈ table, q ∈ m) ∧
  table.Pairwise (fun x y => yearKey y ≤ yearKey x) ∧
  (∀ p ∈ m, p ∉ table → ∀ q ∈ table, yearKey p ≤ yearKey q)

/-! ## Concrete inputs used by counterexamples and witnesses -/

/-- A paged saved-tracks source holding the items 0..122: pages of sizes
50, 50, 23 at offsets 0, 50, 100, and the empty page from offset 150 on. -/
def source123 : Nat → Nat → List Nat := fun limit offset =>
  if offset < 123 then (List.range (min limit (123 - offset))).map (offset + ·) else []

/-- A minimal liked-song entry used to populate concrete examples. -/
def sampleEntry (title : String) : Entry :=
  { track := { name := title, artists := [{ name := "A" }], album := { name := "Al" } }
    added_at := "2024-05-06T07:08:09Z" }

/-- A client whose saved-tracks listing is one page with a single item. -/
def clientOnePage : SpotifyClient :=
  { display_name := "user x"
    user_id := "id1"
    saved_tracks := fun _ offset => if offset = 0 then [sampleEntry "Fresh"] else [] }

/-- A well-formed cache snapshot table for clientOnePage's user. -/
def cacheTableGood : List (List String) :=
  [csv_header, ["1", "A", "CachedSong", "04:05", "50", "url", "2024-01-01", "Al", "tid"]]

/-- The entry parse_cache_table recovers from cacheTableGood. -/
def cachedEntryGood : Entry :=
  { track := { id := some "tid", name := "CachedSong", artists := [{ name := "A" }]
               album := { name := "Al" }, duration_ms := some 245000
               popularity := some 50, spotify_url := some "url" }
    added_at := "2024-01-01T00:00:00Z" }

/-- An environment holding one readable snapshot for clientOnePage's user. -/
def envWithCache : Env :=
  { files := [⟨"user-x-id1-liked-songs-20240101_120000.csv", 100⟩]
    contents := fun n =>
      if n = "user-x-id1-liked-songs-20240101_120000.csv" then some cacheTableGood else none
    save_ok := true
    now := "20240607_080910" }

/-- An environment holding one snapshot whose Duration cell cannot be parsed
(int() raises), so the cache read fails. -/
def envWithBadCache : Env :=
  { files := [⟨"user-x-id1-liked-songs-20240101_120000.csv", 100⟩]
    contents := fun n =>
      if n = "user-x-id1-liked-songs-20240101_120000.csv" then
        some [csv_header, ["1", "A", "CachedSong", "aa:bb", "50", "url", "2024-01-01", "Al", "tid"]]
      else none
    save_ok := true
    now := "20240607_080910" }

/-- An environment with no cache files at all. -/
def envNoCache : Env :=
  { files := [], contents := fun _ => none, save_ok := true, now := "20240607_080910" }

/-- An entry whose single artist name contains a comma. -/
def entryCommaArtist : Entry :=
  { track := { id := some "t1", name := "September"
               artists := [{ name := "Earth, Wind & Fire" }]
               album := { name := "The Best Of" }, duration_ms := some 215000
               popularity := some 80, spotify_url := some "u" }
    added_at := "2024-01-02T03:04:05Z" }

/-- An entry with an artist whose id carries the given value; used to build
analysis inputs. -/
def entryWithArtist (title aid : String) : Entry :=
  { track := { name := title, artists := [{ name := "X" ++ aid, id := some aid }]
               album := { name := "Al" } }
    added_at := "d" }

/-- Genre table: artist a1 plays pop, a2 rock, a3 jazz. -/
def genresPopRockJazz : String → List String := fun aid =>
  if aid = "a1" then ["pop"] else if aid = "a2" then ["rock"]
  else if aid = "a3" then ["jazz"] else []

/-- Eleven tracks whose artist genres count pop 5 times (encountered first),
rock 5 times, jazz once. -/
def tracksPopRock : List Entry :=
  [entryWithArtist "s01" "a1", entryWithArtist "s02" "a1", entryWithArtist "s03" "a1",
   entryWithArtist "s04" "a1", entryWithArtist "s05" "a1",
   entryWithArtist "s06" "a2", entryWithArtist "s07" "a2", entryWithArtist "s08" "a2",
   entryWithArtist "s09" "a2", entryWithArtist "s10" "a2",
   entryWithArtist "s11" "a3"]

/-- An entry with the given title and release date. -/
def entryWithYear (title rd : String) : Entry :=
  { track := { name := title, artists := [{ name := "Y" }]
               album := { name := "Al" ++ title, release_date := some rd } }
    added_at := "d" }

/-- Six tracks: five released in 1999 (encountered first), one in 2000. -/
def tracksYears : List Entry :=
  [entryWithYear "y1" "1999-01-01", entryWithYear "y2" "1999-02-01",
   entryWithYear "y3" "1999-03-01", entryWithYear "y4" "1999-04-01",
   entryWithYear "y5" "1999-05-01", entryWithYear "y6" "2000-01-01"]

/-- A track whose album release date is not numeric, as the analysis's
int(year) requires. -/
def entryBadYear : Entry :=
  { track := { name := "b", artists := [{ name := "Y" }]
               album := { name := "Alb", release_date := some "Unknown" } }
    added_at := "d" }

/-! ## Helper lemmas: decimal rendering and Python int parsing -/

theorem digitChar_isDigit {d : Nat} (h : d < 10) : (digitChar d).isDigit = true := by
  interval_cases d <;> decide

theorem digitChar_toNat {d : Nat} (h : d < 10) : (digitChar d).toNat = 48 + d := by
  interval_cases d <;> decide

theorem digitsVal_append_digit (ds : List Char) (c : Char) :
    digitsVal (ds ++ [c]) = 10 * digitsVal ds + (c.toNat - 48) := by
  simp [digitsVal, List.foldl_append]

theorem digitsVal_cons_zero (ds : List Char) : digitsVal ('0' :: ds) = digitsVal ds := by
  simp [digitsVal]

theorem natDigitsAux_spec : ∀ fuel n, n < fuel →
    natDigitsAux fuel n ≠ [] ∧ (∀ c ∈ natDigitsAux fuel n, c.isDigit = true) ∧
      digitsVal (natDigitsAux fuel n) = n := by
  intro fuel
  induction fuel with
  | zero => omega
  | succ fuel ih =>
    intro n hn
    by_cases h10 : n < 10
    · refine ⟨by simp [natDigitsAux, h10], ?_, ?_⟩
      · intro c hc
        simp [natDigitsAux, h10] at hc
        subst hc
        exact digitChar_isDigit h10
      · have hv : digitsVal [digitChar n] = (digitChar n).toNat - 48 := by
          simp [digitsVal]
        simp only [natDigitsAux, if_pos h10]
        rw [hv, digitChar_toNat h10]
        omega
    · have hd : n / 10 < fuel := by omega
      obtain ⟨h1, h2, h3⟩ := ih (n / 10) hd
      have heq : natDigitsAux (fuel + 1) n = natDigitsAux fuel (n / 10) ++ [digitChar (n % 10)] := by
        simp [natDigitsAux, h10]
      rw [heq]
      refine ⟨by simp [h1], ?_, ?_⟩
      · intro c hc
        rcases List.mem_append.mp hc with h | h
        · exact h2 c h
        · simp at h
          subst h
          exact digitChar_isDigit (by omega)
      · rw [digitsVal_append_digit, h3, digitChar_toNat (show n % 10 < 10 by omega)]
        omega

theorem natDigits_spec (n : Nat) :
    natDigits n ≠ [] ∧ (∀ c ∈ natDigits n, c.isDigit = true) ∧ digitsVal (natDigits n) = n :=
  natDigitsAux_spec (n + 1) n (by omega)

theorem isWhitespace_eq_false_of_isDigit {c : Char} (h : c.isDigit = true) :
    c.isWhitespace = false := by
  have hs : c ≠ ' ' := by intro hc; subst hc; exact absurd h (by decide)
  have ht : c ≠ '\t' := by intro hc; subst hc; exact absurd h (by decide)
  have hr : c ≠ '\r' := by intro hc; subst hc; exact absurd h (by decide)
  have hn : c ≠ '\n' := by intro hc; subst hc; exact absurd h (by decide)
  simp [Char.isWhitespace, hs, ht, hr, hn]

theorem dropWhile_eq_self_of {p : Char → Bool} {cs : List Char}
    (h : ∀ c ∈ cs, p c = false) : cs.dropWhile p = cs := by
  cases cs with
  | nil => rfl
  | cons c cs =>
    rw [List.dropWhile_cons, h c (List.mem_cons_self c cs)]
    simp

theorem stripList_eq_self_of {cs : List Char} (h : ∀ c ∈ cs, c.isWhitespace = false) :
    stripList cs = cs := by
  unfold stripList
  rw [dropWhile_eq_self_of h,
    dropWhile_eq_self_of (fun c hc => h c (List.mem_reverse.mp hc)), List.reverse_reverse]

theorem ne_dash_of_isDigit {c : Char} (h : c.isDigit = true) : c ≠ '-' := by
  intro hc
  subst hc
  exact absurd h (by decide)

theorem ne_plus_of_isDigit {c : Char} (h : c.isDigit = true) : c ≠ '+' := by
  intro hc
  subst hc
  exact absurd h (by decide)

theorem pyInt?_of_digits {cs : List Char} (h1 : cs ≠ [])
    (h2 : ∀ c ∈ cs, c.isDigit = true) :
    pyInt? ⟨cs⟩ = some (digitsVal cs : Int) := by
  have hstrip : stripList cs = cs :=
    stripList_eq_self_of fun c hc => isWhitespace_eq_false_of_isDigit (h2 c hc)
  cases cs with
  | nil => exact absurd rfl h1
  | cons c₀ rest =>
    have hdig := h2 c₀ (List.mem_cons_self c₀ rest)
    have hne : ¬((c₀ :: rest).head? = some '-' ∨ (c₀ :: rest).head? = some '+') := by
      simp only [List.head?_cons, Option.some.injEq]
      push_neg
      exact ⟨ne_dash_of_isDigit hdig, ne_plus_of_isDigit hdig⟩
    have hneg : decide ((c₀ :: rest).head? = some '-') = false := by
      simp only [List.head?_cons, Option.some.injEq, decide_eq_false_iff_not]
      exact ne_dash_of_isDigit hdig
    simp only [pyInt?, hstrip, if_neg hne]
    rw [if_pos]
    · simp only [hneg, if_neg (by simp : ¬false = true)]
    · simp only [Bool.and_eq_true, Bool.not_eq_true', List.isEmpty_eq_false,
        List.all_eq_true]
      exact ⟨by simp, h2⟩

theorem pyInt?_pyStrNat (n : Nat) : pyInt? (pyStrNat n) = some (n : Int) := by
  obtain ⟨h1, h2, h3⟩ := natDigits_spec n
  rw [pyStrNat, pyInt?_of_digits h1 h2, h3]

theorem pyFormat02d_digits {n : Int} (h : 0 ≤ n) :
    (pyFormat02d n).data ≠ [] ∧ (∀ c ∈ (pyFormat02d n).data, c.isDigit = true) ∧
      digitsVal (pyFormat02d n).data = n.toNat := by
  obtain ⟨h1, h2, h3⟩ := natDigits_spec n.toNat
  unfold pyFormat02d
  rw [if_neg (by omega)]
  by_cases h10 : n < 10
  · rw [if_pos h10]
    have hdata : ("0" ++ pyStrNat n.toNat).data = '0' :: natDigits n.toNat := by
      simp [pyStrNat, String.data_append]
    rw [hdata]
    refine ⟨by simp, ?_, ?_⟩
    · intro c hc
      rcases List.mem_cons.mp hc with h | h
      · subst h; decide
      · exact h2 c h
    · rw [digitsVal_cons_zero, h3]
  · rw [if_neg h10]
    exact ⟨h1, h2, h3⟩

theorem pyInt?_pyFormat02d {n : Int} (h : 0 ≤ n) : pyInt? (pyFormat02d n) = some n := by
  obtain ⟨h1, h2, h3⟩ := pyFormat02d_digits h
  have hx := pyInt?_of_digits h1 h2
  rw [show (⟨(pyFormat02d n).data⟩ : String) = pyFormat02d n from rfl] at hx
  rw [hx, h3, Int.toNat_of_nonneg h]

theorem pyStrInt_of_nonneg {n : Int} (h : 0 ≤ n) : pyStrInt n = pyStrNat n.toNat := by
  rw [pyStrInt, if_neg (by omega)]

theorem pyIsDigits_pyStrInt {n : Int} (h : 0 ≤ n) :
    pyIsDigits (pyStrInt n) = true ∧ digitsVal (pyStrInt n).data = n.toNat := by
  obtain ⟨h1, h2, h3⟩ := natDigits_spec n.toNat
  rw [pyStrInt_of_nonneg h]
  constructor
  · simp only [pyIsDigits, pyStrNat, Bool.and_eq_true, Bool.not_eq_true',
      List.isEmpty_eq_false, List.all_eq_true]
    exact ⟨h1, h2⟩
  · exact h3

/-! ## Helper lemmas: split, join and strip -/

theorem splitList_ne_nil (sep : Char) : ∀ cs, splitList sep cs ≠ [] := by
  intro cs
  induction cs with
  | nil => simp [splitList]
  | cons c cs ih =>
    by_cases h : c = sep
    · simp [splitList, h]
    · simp only [splitList, if_neg h]
      cases hs : splitList sep cs with
      | nil => simp
      | cons r rs => simp

theorem splitList_append_of {sep : Char} :
    ∀ {a : List Char} (b : List Char), (∀ c ∈ a, ¬ c = sep) →
      splitList sep (a ++ b) = (splitList sep b).modifyHead (a ++ ·) := by
  intro a
  induction a with
  | nil =>
    intro b _
    simp only [List.nil_append]
    cases splitList sep b with
    | nil => rfl
    | cons r rs => rfl
  | cons c a ih =>
    intro b h
    have hc : ¬ c = sep := h c (List.mem_cons_self c a)
    have ha : ∀ x ∈ a, ¬ x = sep := fun x hx => h x (List.mem_cons_of_mem c hx)
    obtain ⟨r, rs, hrs⟩ : ∃ r rs, splitList sep b = r :: rs := by
      cases hs : splitList sep b with
      | nil => exact absurd hs (splitList_ne_nil sep b)
      | cons r rs => exact ⟨r, rs, rfl⟩
    simp only [List.cons_append, splitList, if_neg hc, List.append_eq, ih b ha, hrs,
      List.modifyHead]

theorem splitList_sep_cons (sep : Char) (b : List Char) :
    splitList sep (sep :: b) = [] :: splitList sep b := by
  simp [splitList]

theorem splitList_no_sep {sep : Char} {a : List Char} (h : ∀ c ∈ a, ¬ c = sep) :
    splitList sep a = [a] := by
  have hx := splitList_append_of (a := a) [] h
  rw [List.append_nil] at hx
  rw [hx]
  simp [splitList]

theorem stripList_cons_space (r : List Char) : stripList (' ' :: r) = stripList r := by
  simp [stripList, List.dropWhile_cons]

theorem split_join_strip : ∀ (parts : List (List Char)), parts ≠ [] →
    (∀ p ∈ parts, (∀ c ∈ p, ¬ c = ',') ∧ stripList p = p) →
    (splitList ',' (joinList [',', ' '] parts)).map stripList = parts := by
  intro parts
  induction parts with
  | nil => intro h; exact absurd rfl h
  | cons p ps ih =>
    intro _ h
    obtain ⟨hpc, hps⟩ := h p (List.mem_cons_self p ps)
    cases ps with
    | nil =>
      rw [show joinList [',', ' '] [p] = p from rfl, splitList_no_sep hpc]
      simp [hps]
    | cons q qs =>
      have hjoin : joinList [',', ' '] (p :: q :: qs) =
          p ++ (',' :: ' ' :: joinList [',', ' '] (q :: qs)) := by
        simp [joinList]
      have hih : (splitList ',' (joinList [',', ' '] (q :: qs))).map stripList = q :: qs :=
        ih (by simp) (fun x hx => h x (List.mem_cons_of_mem p hx))
      obtain ⟨r, rs, hrs⟩ : ∃ r rs, splitList ',' (joinList [',', ' '] (q :: qs)) = r :: rs := by
        cases hs : splitList ',' (joinList [',', ' '] (q :: qs)) with
        | nil => exact absurd hs (splitList_ne_nil _ _)
        | cons r rs => exact ⟨r, rs, rfl⟩
      have hsp : splitList ',' (' ' :: joinList [',', ' '] (q :: qs)) = (' ' :: r) :: rs := by
        have hx := @splitList_append_of ',' [' '] (joinList [',', ' '] (q :: qs))
          (by intro c hc; simp at hc; subst hc; decide)
        simp only [List.singleton_append] at hx
        rw [hx, hrs, List.modifyHead]
      rw [hjoin, @splitList_append_of ',' p _ hpc, splitList_sep_cons, hsp]
      rw [hrs] at hih
      simp only [List.map_cons] at hih ⊢
      simp only [List.modifyHead, List.append_nil, List.map_cons]
      rw [stripList_cons_space, hps]
      exact congrArg (p :: ·) hih

theorem pyStrip_mk (cs : List Char) : pyStrip ⟨cs⟩ = ⟨stripList cs⟩ := rfl

theorem pySplit_pyJoin_strip (names : List String) (hne : names ≠ [])
    (h : ∀ nm ∈ names, (∀ c ∈ nm.data, ¬ c = ',') ∧ pyStrip nm = nm) :
    (pySplit (pyJoin ", " names) ',').map pyStrip = names := by
  have hkey := split_join_strip (names.map (·.data))
    (by simpa using hne)
    (by
      intro p hp
      obtain ⟨nm, hnm, rfl⟩ := List.mem_map.mp hp
      obtain ⟨h1, h2⟩ := h nm hnm
      exact ⟨h1, congrArg String.data h2⟩)
  show ((splitList ',' (joinList (", ").data (names.map (·.data)))).map
      (fun cs => (⟨cs⟩ : String))).map pyStrip = names
  rw [List.map_map]
  have hcomp : (pyStrip ∘ fun cs => (⟨cs⟩ : String)) = fun cs => (⟨stripList cs⟩ : String) := rfl
  rw [hcomp]
  have : (fun cs => (⟨stripList cs⟩ : String)) =
      (fun cs => (⟨cs⟩ : String)) ∘ stripList := rfl
  rw [this, ← List.map_map, show (", ").data = [',', ' '] from rfl, hkey, List.map_map]
  simp only [show ((fun cs => (⟨cs⟩ : String)) ∘ fun s : String => s.data) = id from rfl,
    List.map_id]

/-! ## Helper lemmas: the exported row re-parsed by the cache reader -/

theorem ne_colon_of_isDigit {c : Char} (h : c.isDigit = true) : ¬ c = ':' := by
  intro hc
  subst hc
  exact absurd h (by decide)

theorem duration_formatted_data (ms : Int) :
    (duration_formatted ms).data =
      (pyFormat02d (Int.fdiv ms 60000)).data ++
        ':' :: (pyFormat02d (Int.fdiv (Int.fmod ms 60000) 1000)).data := by
  show (pyFormat02d (Int.fdiv ms 60000) ++ ":" ++
      pyFormat02d (Int.fdiv (Int.fmod ms 60000) 1000)).data = _
  rw [String.data_append, String.data_append, List.append_assoc]
  rfl

theorem pyContainsChar_duration (ms : Int) :
    pyContainsChar (duration_formatted ms) ':' = true := by
  unfold pyContainsChar
  rw [duration_formatted_data]
  simp [List.contains, List.elem_iff]

theorem pySplit_duration {ms : Int} (h : 0 ≤ ms) :
    pySplit (duration_formatted ms) ':' =
      [pyFormat02d (Int.fdiv ms 60000),
       pyFormat02d (Int.fdiv (Int.fmod ms 60000) 1000)] := by
  have hm : (0 : Int) ≤ Int.fdiv ms 60000 := Int.fdiv_nonneg h (by norm_num)
  have hs : (0 : Int) ≤ Int.fdiv (Int.fmod ms 60000) 1000 :=
    Int.fdiv_nonneg (Int.fmod_nonneg h (by norm_num)) (by norm_num)
  obtain ⟨-, h2m, -⟩ := pyFormat02d_digits hm
  obtain ⟨-, h2s, -⟩ := pyFormat02d_digits hs
  unfold pySplit
  rw [duration_formatted_data,
    @splitList_append_of ':' _ _ (fun c hc => ne_colon_of_isDigit (h2m c hc)),
    splitList_sep_cons,
    splitList_no_sep (fun c hc => ne_colon_of_isDigit (h2s c hc))]
  simp [List.modifyHead]

theorem duration_granularity (ms : Int) :
    (Int.fdiv ms 60000 * 60 + Int.fdiv (Int.fmod ms 60000) 1000) * 1000 =
      Int.fdiv ms 1000 * 1000 := by
  rw [Int.fdiv_eq_ediv _ (by norm_num), Int.fdiv_eq_ediv _ (by norm_num),
    Int.fdiv_eq_ediv _ (by norm_num), Int.fmod_eq_emod _ (by norm_num)]
  omega

theorem row_to_track_data_export_row (i : Nat) (e : Entry)
    (hart : e.track.artists ≠ [])
    (hartnames : ∀ a ∈ e.track.artists,
      (∀ c ∈ a.name.data, ¬ c = ',') ∧ pyStrip a.name = a.name)
    (hdur : 0 ≤ e.track.duration_ms.getD 0)
    (hpop : 0 ≤ e.track.popularity.getD 0) :
    row_to_track_data (csv_header.zip (export_row i e)) = some
      { track :=
          { id := some (e.track.id.getD "")
            name := e.track.name
            artists := e.track.artists.map fun a => { name := a.name }
            album := { name := e.track.album.name }
            duration_ms := some (Int.fdiv (e.track.duration_ms.getD 0) 1000 * 1000)
            popularity := some (e.track.popularity.getD 0)
            spotify_url := some (e.track.spotify_url.getD "") }
        added_at := pyTake e.added_at 10 ++ "T00:00:00Z" } := by
  have hTitle : (csv_header.zip (export_row i e)).lookup "Title" = some e.track.name := rfl
  have hArtist : (csv_header.zip (export_row i e)).lookup "Artist" =
      some (joined_artists e.track.artists) := rfl
  have hDuration : (csv_header.zip (export_row i e)).lookup "Duration" =
      some (duration_formatted (e.track.duration_ms.getD 0)) := rfl
  have hPopularity : (csv_header.zip (export_row i e)).lookup "Popularity" =
      some (pyStrInt (e.track.popularity.getD 0)) := rfl
  have hUrl : (csv_header.zip (export_row i e)).lookup "Spotify URL" =
      some (e.track.spotify_url.getD "") := rfl
  have hDate : (csv_header.zip (export_row i e)).lookup "Liked Date" =
      some (pyTake e.added_at 10) := rfl
  have hTid : (csv_header.zip (export_row i e)).lookup "Track ID" =
      some (e.track.id.getD "") := rfl
  have hAlbum : (csv_header.zip (export_row i e)).lookup "Album" =
      some e.track.album.name := rfl
  have hmm : (0 : Int) ≤ Int.fdiv (e.track.duration_ms.getD 0) 60000 :=
    Int.fdiv_nonneg hdur (by norm_num)
  have hss : (0 : Int) ≤ Int.fdiv (Int.fmod (e.track.duration_ms.getD 0) 60000) 1000 :=
    Int.fdiv_nonneg (Int.fmod_nonneg hdur (by norm_num)) (by norm_num)
  obtain ⟨hpd, hpv⟩ := pyIsDigits_pyStrInt hpop
  have hnames : (pySplit (joined_artists e.track.artists) ',').map pyStrip =
      e.track.artists.map (·.name) := by
    apply pySplit_pyJoin_strip
    · simpa using hart
    · intro nm hnm
      obtain ⟨a, ha, rfl⟩ := List.mem_map.mp hnm
      exact hartnames a ha
  simp only [row_to_track_data, hTitle, hArtist, hDuration, hPopularity, hUrl, hDate,
    hTid, hAlbum, Option.bind_eq_bind, Option.some_bind]
  rw [if_pos (by exact_mod_cast pyContainsChar_duration (e.track.duration_ms.getD 0))]
  rw [pySplit_duration hdur]
  simp only [List.getD, List.get?_cons_zero, List.get?_cons_succ, List.get?,
    Option.getD_some]
  rw [pyInt?_pyFormat02d hmm, pyInt?_pyFormat02d hss]
  simp only [Option.some_bind, hpd, if_pos]
  rw [duration_granularity]
  have hartists : (pySplit (joined_artists e.track.artists) ',').map
      (fun a => ({ name := pyStrip a } : Artist)) =
      e.track.artists.map fun a => { name := a.name } := by
    have : (fun a => ({ name := pyStrip a } : Artist)) =
        (fun n => ({ name := n } : Artist)) ∘ pyStrip := rfl
    rw [this, ← List.map_map, hnames, List.map_map]
    rfl
  rw [hartists, hpv, Int.toNat_of_nonneg hpop]
  rfl

theorem snd_mem_of_mem_enum {l : List α} {p : Nat × α} (h : p ∈ l.enum) : p.2 ∈ l :=
  List.enum_map_snd l ▸ List.mem_map_of_mem Prod.snd h

theorem parse_rows_map {l : List α} {z : α → List (String × String)} {g : α → Entry}
    (h : ∀ x ∈ l, row_to_track_data (z x) = some (g x)) :
    parse_rows (l.map z) = some (l.map g) := by
  induction l with
  | nil => rfl
  | cons x xs ih =>
    simp only [List.map_cons, parse_rows, h x (List.mem_cons_self x xs),
      ih fun r hr => h r (List.mem_cons_of_mem _ hr), Option.some_bind]
    rfl

theorem take_append_take {l m : List Char} {n : Nat} (h : n ≤ l.length) :
    List.take n (List.take n l ++ m) = List.take n l := by
  rw [List.take_append_of_le_length (by simp [h]), List.take_take]
  simp

theorem pyTake_append_pyTake {s : String} (t : String) {n : Nat} (h : n ≤ s.data.length) :
    pyTake (pyTake s n ++ t) n = pyTake s n := by
  unfold pyTake
  congr 1
  rw [String.data_append]
  exact take_append_take h

/-! ## Claim C4: export / cache-reader round trip -/

/-- C4 counterexample: the claim fails as stated — an artist name containing
a comma is not reproduced by re-parsing the exported CSV through the cache
reader's row mapping: "Earth, Wind & Fire" comes back as the two artists
"Earth" and "Wind & Fire", because export joins artist names with ", " and
the reader splits on "," and strips each piece. -/
theorem csv_roundtrip_counterexample :
    entryCommaArtist.track.artists.map (fun a => a.name) = ["Earth, Wind & Fire"] ∧
    (parse_cache_table (export_songs_to_csv [entryCommaArtist])).map
      (fun es => es.map fun e => e.track.artists.map fun a => a.name) =
      some [["Earth", "Wind & Fire"]] ∧
    ¬ (["Earth", "Wind & Fire"] = ["Earth, Wind & Fire"]) := by decide

/-- C4 (amended): for non-empty entry lists whose artist lists are non-empty
with comma-free, whitespace-trimmed names, whose liked timestamps have at
least 10 characters, and whose duration and popularity are non-negative,
exporting with export_songs_to_csv and re-parsing through the cache reader's
row mapping reproduces artist names, title, album and liked date exactly,
duration to mm:ss (whole-second) precision, and popularity exactly. -/
theorem csv_export_reparse_roundtrip (songs : List Entry)
    (_hne : songs ≠ [])
    (hart : ∀ e ∈ songs, e.track.artists ≠ [])
    (hnames : ∀ e ∈ songs, ∀ a ∈ e.track.artists,
      (∀ c ∈ a.name.data, ¬ c = ',') ∧ pyStrip a.name = a.name)
    (hdur : ∀ e ∈ songs, 0 ≤ e.track.duration_ms.getD 0)
    (hpop : ∀ e ∈ songs, 0 ≤ e.track.popularity.getD 0)
    (hdate : ∀ e ∈ songs, 10 ≤ e.added_at.data.length) :
    ∃ parsed, parse_cache_table (export_songs_to_csv songs) = some parsed ∧
      parsed.length = songs.length ∧
      ∀ i (hi : i < parsed.length) (hj : i < songs.length),
        (parsed.get ⟨i, hi⟩).track.artists.map (fun a => a.name) =
          (songs.get ⟨i, hj⟩).track.artists.map (fun a => a.name) ∧
        (parsed.get ⟨i, hi⟩).track.name = (songs.get ⟨i, hj⟩).track.name ∧
        (parsed.get ⟨i, hi⟩).track.album.name = (songs.get ⟨i, hj⟩).track.album.name ∧
        pyTake (parsed.get ⟨i, hi⟩).added_at 10 = pyTake (songs.get ⟨i, hj⟩).added_at 10 ∧
        (parsed.get ⟨i, hi⟩).track.duration_ms =
          some (Int.fdiv ((songs.get ⟨i, hj⟩).track.duration_ms.getD 0) 1000 * 1000) ∧
        (parsed.get ⟨i, hi⟩).track.popularity =
          some ((songs.get ⟨i, hj⟩).track.popularity.getD 0) := by
  have hparse : parse_cache_table (export_songs_to_csv songs) =
      parse_rows (songs.enum.map fun p => csv_header.zip (export_row (p.1 + 1) p.2)) := by
    show parse_rows ((songs.enum.map fun p => export_row (p.1 + 1) p.2).map
      (fun r => csv_header.zip r)) = _
    rw [List.map_map]
    rfl
  have hpr := parse_rows_map (l := songs.enum)
    (z := fun p => csv_header.zip (export_row (p.1 + 1) p.2))
    (g := fun p =>
      { track :=
          { id := some (p.2.track.id.getD "")
            name := p.2.track.name
            artists := p.2.track.artists.map fun a => { name := a.name }
            album := { name := p.2.track.album.name }
            duration_ms := some (Int.fdiv (p.2.track.duration_ms.getD 0) 1000 * 1000)
            popularity := some (p.2.track.popularity.getD 0)
            spotify_url := some (p.2.track.spotify_url.getD "") }
        added_at := pyTake p.2.added_at 10 ++ "T00:00:00Z" })
    (by
      intro p hp
      have hm := snd_mem_of_mem_enum hp
      exact row_to_track_data_export_row (p.1 + 1) p.2 (hart _ hm) (hnames _ hm)
        (hdur _ hm) (hpop _ hm))
  refine ⟨_, by rw [hparse, hpr], by simp, ?_⟩
  intro i hi hj
  simp only [List.get_eq_getElem, List.getElem_map, List.getElem_enum]
  refine ⟨?_, trivial, trivial, ?_, trivial, trivial⟩
  · rw [List.map_map]
    rfl
  · exact pyTake_append_pyTake _ (hdate _ (List.getElem_mem _))

/-- C4 witness: the amended round trip applied to a concrete entry. -/
theorem csv_export_reparse_roundtrip_witness :
    (parse_cache_table (export_songs_to_csv [cachedEntryGood])).isSome = true := by
  obtain ⟨parsed, hp, -, -⟩ := csv_export_reparse_roundtrip [cachedEntryGood]
    (by decide) (by decide) (by decide) (by decide) (by decide) (by decide)
  rw [hp]
  rfl

/-! ## Claim C5: export format, and Claim C9: numeric examples -/

/-- C5: export_songs_to_csv writes exactly the fixed nine-column header
(position, artists joined by comma-space, title, duration mm:ss from
milliseconds, popularity, external URL, liked date truncated to YYYY-MM-DD,
album, track id) followed by one row per entry in input order, with
positions starting at 1. -/
theorem export_songs_to_csv_format (liked_songs : List Entry) :
    (export_songs_to_csv liked_songs).length = liked_songs.length + 1 ∧
    (export_songs_to_csv liked_songs).head? =
      some ["Song Number", "Artist", "Title", "Duration", "Popularity", "Spotify URL",
            "Liked Date", "Album", "Track ID"] ∧
    ∀ i (h : i < liked_songs.length),
      (export_songs_to_csv liked_songs).get? (i + 1) = some
        [pyStrNat (i + 1),
         pyJoin ", " ((liked_songs.get ⟨i, h⟩).track.artists.map fun a => a.name),
         (liked_songs.get ⟨i, h⟩).track.name,
         pyFormat02d (Int.fdiv ((liked_songs.get ⟨i, h⟩).track.duration_ms.getD 0) 60000)
           ++ ":" ++
           pyFormat02d (Int.fdiv
             (Int.fmod ((liked_songs.get ⟨i, h⟩).track.duration_ms.getD 0) 60000) 1000),
         pyStrInt ((liked_songs.get ⟨i, h⟩).track.popularity.getD 0),
         (liked_songs.get ⟨i, h⟩).track.spotify_url.getD "",
         pyTake (liked_songs.get ⟨i, h⟩).added_at 10,
         (liked_songs.get ⟨i, h⟩).track.album.name,
         (liked_songs.get ⟨i, h⟩).track.id.getD ""] := by
  refine ⟨by simp [export_songs_to_csv], rfl, ?_⟩
  intro i h
  simp only [export_songs_to_csv, List.get?_eq_getElem?, List.getElem?_cons_succ,
    List.getElem?_map, List.getElem?_enum, List.getElem?_eq_getElem h, Option.map_some]
  rfl

/-- C5 witness: the format statement applied to a one-entry list at index 0. -/
theorem export_songs_to_csv_format_witness :
    (export_songs_to_csv [cachedEntryGood]).get? 1 =
      some ["1", "A", "CachedSong", "04:05", "50", "url", "2024-01-01", "Al", "tid"] := by
  obtain ⟨-, -, hrow⟩ := export_songs_to_csv_format [cachedEntryGood]
  rw [hrow 0 (by decide)]
  decide

/-- C9: a track with duration_ms = 245000 exports with Duration cell exactly
"04:05", and a track whose record lacks the popularity field exports with
Popularity cell exactly "0". -/
theorem duration_and_popularity_examples :
    export_songs_to_csv
      [{ track := { name := "A", artists := [{ name := "X" }], album := { name := "B" }
                    duration_ms := some 245000, popularity := some 50 }
         added_at := "2024-05-06T07:08:09Z" },
       { track := { name := "C", artists := [{ name := "Y" }], album := { name := "D" }
                    duration_ms := some 1000 }
         added_at := "2024-05-06T07:08:09Z" }] =
    [["Song Number", "Artist", "Title", "Duration", "Popularity", "Spotify URL",
      "Liked Date", "Album", "Track ID"],
     ["1", "X", "A", "04:05", "50", "", "2024-05-06", "B", ""],
     ["2", "Y", "C", "00:01", "0", "", "2024-05-06", "D", ""]] := by decide

/-! ## Claim C1: pagination -/

theorem fetch_all_liked_from (source : Nat → Nat → List α) (k : Nat)
    (hne : ∀ i, i < k → source 50 (50 * i) ≠ [])
    (he : source 50 (50 * k) = []) :
    ∀ (fuel j : Nat), j ≤ k → k - j < fuel →
      fetch_all_liked source fuel (50 * j) =
        (some (((List.range (k - j)).map fun i => source 50 (50 * (j + i))).flatten),
         (List.range (k - j + 1)).map fun i => (50, 50 * (j + i))) := by
  intro fuel
  induction fuel with
  | zero => intro j hj hfuel; omega
  | succ fuel ih =>
    intro j hj hfuel
    by_cases hjk : j = k
    · subst hjk
      have hstep : fetch_all_liked source (fuel + 1) (50 * j) = (some [], [(50, 50 * j)]) := by
        simp [fetch_all_liked, he]
      rw [hstep]
      simp [Nat.sub_self, List.range_succ]
    · have hjlt : j < k := by omega
      have hpage : source 50 (50 * j) ≠ [] := hne j hjlt
      have hstep : fetch_all_liked source (fuel + 1) (50 * j) =
          ((fetch_all_liked source fuel (50 * j + 50)).1.map (source 50 (50 * j) ++ ·),
           (50, 50 * j) :: (fetch_all_liked source fuel (50 * j + 50)).2) := by
        simp only [fetch_all_liked]
        rw [if_neg (by simpa [List.isEmpty_iff] using hpage)]
      have h50 : 50 * j + 50 = 50 * (j + 1) := by ring
      rw [hstep, h50, ih (j + 1) (by omega) (by omega)]
      have hkj : k - j = (k - (j + 1)) + 1 := by omega
      have hkj2 : k - j + 1 = (k - (j + 1) + 1) + 1 := by omega
      have hxA : ((List.range (k - j)).map fun i => source 50 (50 * (j + i))).flatten =
          source 50 (50 * j) ++
            ((List.range (k - (j + 1))).map fun i => source 50 (50 * (j + 1 + i))).flatten := by
        rw [hkj, List.range_succ_eq_map, List.map_cons, List.flatten_cons, List.map_map]
        congr 1
        apply congrArg List.flatten
        apply List.map_congr_left
        intro i _
        show source 50 (50 * (j + (i + 1))) = source 50 (50 * (j + 1 + i))
        exact congrArg (source 50) (by omega)
      have hxf : (List.range (k - j + 1)).map (fun i => ((50 : Nat), 50 * (j + i))) =
          (50, 50 * j) ::
            (List.range (k - (j + 1) + 1)).map fun i => ((50 : Nat), 50 * (j + 1 + i)) := by
        rw [hkj2, List.range_succ_eq_map, List.map_cons, List.map_map]
        congr 1
        apply List.map_congr_left
        intro i _
        show ((50 : Nat), 50 * (j + (i + 1))) = (50, 50 * (j + 1 + i))
        exact congrArg (fun x => ((50 : Nat), 50 * x)) (by omega)
      simp only [Prod.mk.injEq]
      constructor
      · rw [Option.map_some', hxA]
      · rw [hxf]

theorem fetch_all_liked_zero (source : Nat → Nat → List α) (k fuel : Nat)
    (hne : ∀ i, i < k → source 50 (50 * i) ≠ [])
    (he : source 50 (50 * k) = [])
    (hfuel : k < fuel) :
    fetch_all_liked source fuel 0 =
      (some (((List.range k).map fun i => source 50 (50 * i)).flatten),
       (List.range (k + 1)).map fun i => (50, 50 * i)) := by
  have h := fetch_all_liked_from source k hne he fuel 0 (by omega) (by omega)
  simpa using h

/-- C1: the pagination loop of load_liked_songs_data requests pages of fixed
size 50 at offsets 0, 50, 100, ..., stops at the first page with zero items,
and returns the concatenation of all non-empty pages in request order. -/
theorem load_pagination (source : Nat → Nat → List α) (k fuel : Nat)
    (hne : ∀ i, i < k → source 50 (50 * i) ≠ [])
    (he : source 50 (50 * k) = [])
    (hfuel : k < fuel) :
    fetch_all_liked source fuel 0 =
      (some (((List.range k).map fun i => source 50 (50 * i)).flatten),
       (List.range (k + 1)).map fun i => (50, 50 * i)) :=
  fetch_all_liked_zero source k fuel hne he hfuel

/-- C1 witness: against a paged source with pages of sizes [50, 50, 23, 0],
the loop requests limit 50 at offsets 0, 50, 100, 150 and yields exactly the
123 items in page order. -/
theorem load_pagination_witness :
    fetch_all_liked source123 10 0 =
      (some (List.range 123), [(50, 0), (50, 50), (50, 100), (50, 150)]) := by
  have h := load_pagination source123 3 10 (by decide) (by decide) (by decide)
  rw [h]
  decide

/-! ## Claim C3: latest cache file -/

/-- C3: get_latest_cache_file considers exactly the files matching the
current (.csv) or legacy (.txt) snapshot pattern for the user, returns none
when no file matches, and otherwise returns a matching file whose
filesystem modification time is greatest among all matching files
(independent of the timestamp embedded in the filename). -/
theorem get_latest_cache_file_spec (username : String) (fs : List FileInfo) :
    (get_latest_cache_file username fs = none ↔
      ∀ f ∈ fs, glob_match (username ++ "-liked-songs-") ".csv" f.name = false ∧
                glob_match (username ++ "-liked-songs-") ".txt" f.name = false) ∧
    (∀ f, get_latest_cache_file username fs = some f →
      f ∈ fs ∧
      (glob_match (username ++ "-liked-songs-") ".csv" f.name = true ∨
       glob_match (username ++ "-liked-songs-") ".txt" f.name = true) ∧
      ∀ g ∈ fs,
        (glob_match (username ++ "-liked-songs-") ".csv" g.name = true ∨
         glob_match (username ++ "-liked-songs-") ".txt" g.name = true) →
        g.mtime ≤ f.mtime) := by
  letI : IsTotal FileInfo (fun a b => b.mtime ≤ a.mtime) :=
    ⟨fun a b => (Nat.le_total a.mtime b.mtime).symm⟩
  letI : IsTrans FileInfo (fun a b => b.mtime ≤ a.mtime) :=
    ⟨fun _ _ _ hab hbc => Nat.le_trans hbc hab⟩
  have hmemcf : ∀ g,
      g ∈ fs.filter (fun f => glob_match (username ++ "-liked-songs-") ".csv" f.name) ++
          fs.filter (fun f => glob_match (username ++ "-liked-songs-") ".txt" f.name) ↔
      g ∈ fs ∧ (glob_match (username ++ "-liked-songs-") ".csv" g.name = true ∨
                glob_match (username ++ "-liked-songs-") ".txt" g.name = true) := by
    intro g
    simp only [List.mem_append, List.mem_filter]
    constructor
    · rintro (⟨h1, h2⟩ | ⟨h1, h2⟩)
      · exact ⟨h1, Or.inl h2⟩
      · exact ⟨h1, Or.inr h2⟩
    · rintro ⟨h1, h2 | h2⟩
      · exact Or.inl ⟨h1, h2⟩
      · exact Or.inr ⟨h1, h2⟩
  constructor
  · simp only [get_latest_cache_file]
    by_cases hemp : (fs.filter (fun f =>
        glob_match (username ++ "-liked-songs-") ".csv" f.name) ++
        fs.filter (fun f => glob_match (username ++ "-liked-songs-") ".txt" f.name)).isEmpty
    · rw [if_pos hemp]
      simp only [List.isEmpty_iff, List.append_eq_nil, List.filter_eq_nil_iff] at hemp
      constructor
      · intro _ f hf
        exact ⟨Bool.not_eq_true _ ▸ hemp.1 f hf, Bool.not_eq_true _ ▸ hemp.2 f hf⟩
      · intro _
        rfl
    · rw [if_neg hemp]
      constructor
      · intro hnone
        exfalso
        rw [List.isEmpty_iff] at hemp
        have hlen := List.length_insertionSort (fun a b : FileInfo => b.mtime ≤ a.mtime)
          (fs.filter (fun f => glob_match (username ++ "-liked-songs-") ".csv" f.name) ++
           fs.filter (fun f => glob_match (username ++ "-liked-songs-") ".txt" f.name))
        cases hs : (fs.filter (fun f =>
            glob_match (username ++ "-liked-songs-") ".csv" f.name) ++
            fs.filter (fun f =>
              glob_match (username ++ "-liked-songs-") ".txt" f.name)).insertionSort
            (fun a b => b.mtime ≤ a.mtime) with
        | nil =>
          rw [hs] at hlen
          exact hemp (List.length_eq_zero.mp hlen.symm)
        | cons x rest =>
          rw [hs] at hnone
          exact Option.noConfusion hnone
      · intro hall
        exfalso
        apply hemp
        rw [List.isEmpty_iff, List.append_eq_nil]
        constructor <;> rw [List.filter_eq_nil_iff] <;> intro a ha <;>
          simp [(hall a ha).1, (hall a ha).2]
  · intro f hf
    simp only [get_latest_cache_file] at hf
    by_cases hemp : (fs.filter (fun f =>
        glob_match (username ++ "-liked-songs-") ".csv" f.name) ++
        fs.filter (fun f => glob_match (username ++ "-liked-songs-") ".txt" f.name)).isEmpty
    · rw [if_pos hemp] at hf
      exact Option.noConfusion hf
    · rw [if_neg hemp] at hf
      have hsorted := List.sorted_insertionSort (fun a b : FileInfo => b.mtime ≤ a.mtime)
        (fs.filter (fun f => glob_match (username ++ "-liked-songs-") ".csv" f.name) ++
         fs.filter (fun f => glob_match (username ++ "-liked-songs-") ".txt" f.name))
      have hperm := List.perm_insertionSort (fun a b : FileInfo => b.mtime ≤ a.mtime)
        (fs.filter (fun f => glob_match (username ++ "-liked-songs-") ".csv" f.name) ++
         fs.filter (fun f => glob_match (username ++ "-liked-songs-") ".txt" f.name))
      cases hs : (fs.filter (fun f =>
          glob_match (username ++ "-liked-songs-") ".csv" f.name) ++
          fs.filter (fun f =>
            glob_match (username ++ "-liked-songs-") ".txt" f.name)).insertionSort
          (fun a b => b.mtime ≤ a.mtime) with
      | nil =>
        rw [hs] at hf
        exact Option.noConfusion hf
      | cons x rest =>
        rw [hs] at hf hsorted hperm
        have hxf : x = f := by
          simpa using hf
        subst hxf
        have hxmem : x ∈ fs ∧ (glob_match (username ++ "-liked-songs-") ".csv" x.name = true ∨
            glob_match (username ++ "-liked-songs-") ".txt" x.name = true) :=
          (hmemcf x).mp (hperm.mem_iff.mp (List.mem_cons_self x rest))
        refine ⟨hxmem.1, hxmem.2, ?_⟩
        intro g hg hgp
        have hgcf := (hmemcf g).mpr ⟨hg, hgp⟩
        rcases List.mem_cons.mp (hperm.symm.mem_iff.mp hgcf) with h | h
        · subst h
          exact Nat.le_refl _
        · exact List.rel_of_sorted_cons hsorted g h

/-- C3 witness: three files with modification times 5, 9, 99, of which the
two snapshot-pattern files have times 5 and 9; the legacy .txt file with
time 9 is selected. -/
theorem get_latest_cache_file_spec_witness :
    get_latest_cache_file "u"
      [⟨"u-liked-songs-1.csv", 5⟩, ⟨"u-liked-songs-2.txt", 9⟩, ⟨"nope.csv", 99⟩] =
      some ⟨"u-liked-songs-2.txt", 9⟩ ∧
    (9 : Nat) ≤ 9 := by
  refine ⟨by decide, ?_⟩
  have h := (get_latest_cache_file_spec "u"
    [⟨"u-liked-songs-1.csv", 5⟩, ⟨"u-liked-songs-2.txt", 9⟩, ⟨"nope.csv", 99⟩]).2
    ⟨"u-liked-songs-2.txt", 9⟩ (by decide)
  exact h.2.2 ⟨"u-liked-songs-2.txt", 9⟩ (by decide) (by decide)

/-! ## Claim C2: cache hit versus forced refresh -/

/-- C2 counterexample: with force_refresh = false and a readable cache
snapshot present, load returns the cached entries but still issues a network
call — current_user() (line 176) is called before the cache is consulted —
so the claim's "no network call at all" is false on this input. -/
theorem load_cache_counterexample :
    load_liked_songs_data envWithCache clientOnePage 5 false =
      (some ([cachedEntryGood], " (Loaded from cache: 2024-01-01)", "user-x-id1"),
       [ApiCall.currentUser]) ∧
    ([ApiCall.currentUser] : List ApiCall) ≠ [] := by decide

/-- C2 (amended): with force_refresh = false and a readable cache snapshot,
load returns the cached entries and issues no saved-tracks page request —
its only API call is the initial current_user profile request; with
force_refresh = true the cache state is ignored (only save_ok and the clock
can influence the result) and the full paginated fetch is issued. -/
theorem load_cache_behavior :
    (∀ (env : Env) (client : SpotifyClient) (fuel : Nat) songs cached_at,
      load_liked_songs_from_cache (username_of client) env.files env.contents =
        some (songs, cached_at) →
      load_liked_songs_data env client fuel false =
        (some (songs, " (Loaded from cache: " ++ pyTake cached_at 10 ++ ")",
          username_of client), [ApiCall.currentUser])) ∧
    (∀ (env env' : Env) (client : SpotifyClient) (fuel : Nat),
      env.save_ok = env'.save_ok → env.now = env'.now →
      load_liked_songs_data env client fuel true =
        load_liked_songs_data env' client fuel true) ∧
    (∀ (env : Env) (client : SpotifyClient) (fuel k : Nat),
      (∀ i, i < k → client.saved_tracks 50 (50 * i) ≠ []) →
      client.saved_tracks 50 (50 * k) = [] → k < fuel →
      (load_liked_songs_data env client fuel true).2 =
        ApiCall.currentUser ::
          (List.range (k + 1)).map fun i => ApiCall.savedTracks 50 (50 * i)) := by
  refine ⟨?_, ?_, ?_⟩
  · intro env client fuel songs cached_at hcache
    simp [load_liked_songs_data, hcache]
  · intro env env' client fuel h1 h2
    simp only [load_liked_songs_data]
    rw [if_pos trivial, if_pos trivial, h1, h2]
  · intro env client fuel k hne he hfuel
    simp only [load_liked_songs_data]
    rw [if_pos trivial, fetch_all_liked_zero client.saved_tracks k fuel hne he hfuel]
    simp [List.map_map]

/-- C2 witness: the amended statement at a concrete cache and client. -/
theorem load_cache_behavior_witness :
    load_liked_songs_data envWithCache clientOnePage 5 false =
      (some ([cachedEntryGood], " (Loaded from cache: 2024-01-01)", "user-x-id1"),
       [ApiCall.currentUser]) ∧
    (load_liked_songs_data envWithCache clientOnePage 5 true).2 =
      [ApiCall.currentUser, ApiCall.savedTracks 50 0, ApiCall.savedTracks 50 50] := by
  constructor
  · have h := load_cache_behavior.1 envWithCache clientOnePage 5 [cachedEntryGood]
      "2024-01-01" (by decide)
    exact h.trans (by decide)
  · have h := load_cache_behavior.2.2 envWithCache clientOnePage 5 1
      (by decide) (by decide) (by decide)
    exact h.trans (by decide)

/-! ## Claim C6: cache parsing never fails the caller -/

/-- C6: the cache reader is total (exceptions are folded into the Option
result, never escaping the boundary); a row whose Popularity cell is not
numeric still parses, with popularity defaulted to 0 (here with a
colon-free Duration cell, whose own default 0 applies); and a cache read
failure makes load_liked_songs_from_cache return none, which the caller
treats exactly like an absent cache: the call proceeds identically to one
whose cache directory is empty. -/
theorem cache_parse_defaults_and_failure :
    (∀ num artist title dur pop url date albumName tid : String,
      pyContainsChar dur ':' = false → pyIsDigits pop = false →
      ∃ e, row_to_track_data
          (csv_header.zip [num, artist, title, dur, pop, url, date, albumName, tid]) =
          some e ∧ e.track.popularity = some 0) ∧
    (∀ (env : Env) (client : SpotifyClient) (fuel : Nat),
      load_liked_songs_from_cache (username_of client) env.files env.contents = none →
      load_liked_songs_data env client fuel false =
        load_liked_songs_data ⟨[], env.contents, env.save_ok, env.now⟩ client fuel false) := by
  constructor
  · intro num artist title dur pop url date albumName tid hdur hpop
    have hT : (csv_header.zip [num, artist, title, dur, pop, url, date, albumName, tid]).lookup
        "Title" = some title := rfl
    have hA : (csv_header.zip [num, artist, title, dur, pop, url, date, albumName, tid]).lookup
        "Artist" = some artist := rfl
    have hD : (csv_header.zip [num, artist, title, dur, pop, url, date, albumName, tid]).lookup
        "Duration" = some dur := rfl
    have hP : (csv_header.zip [num, artist, title, dur, pop, url, date, albumName, tid]).lookup
        "Popularity" = some pop := rfl
    have hU : (csv_header.zip [num, artist, title, dur, pop, url, date, albumName, tid]).lookup
        "Spotify URL" = some url := rfl
    have hL : (csv_header.zip [num, artist, title, dur, pop, url, date, albumName, tid]).lookup
        "Liked Date" = some date := rfl
    have hI : (csv_header.zip [num, artist, title, dur, pop, url, date, albumName, tid]).lookup
        "Track ID" = some tid := rfl
    have hAl : (csv_header.zip [num, artist, title, dur, pop, url, date, albumName, tid]).lookup
        "Album" = some albumName := rfl
    refine ⟨{ track := { id := some tid, name := title
                         artists := (pySplit artist ',').map fun a => { name := pyStrip a }
                         album := { name := albumName }, duration_ms := some 0
                         popularity := some 0, spotify_url := some url }
              added_at := date ++ "T00:00:00Z" }, ?_, rfl⟩
    simp only [row_to_track_data, hT, hA, hD, hP, hU, hL, hI, hAl, Option.bind_eq_bind,
      Option.some_bind]
    rw [if_neg (by simp [hdur])]
    rw [if_neg (by simp [hpop] : ¬ pyIsDigits pop = true)]
    rfl
  · intro env client fuel hcache
    have hempty : load_liked_songs_from_cache (username_of client) ([] : List FileInfo)
        env.contents = none := rfl
    simp only [load_liked_songs_data, hcache, hempty]

/-- C6 witness: a concrete malformed row parses with popularity 0, and a
concrete environment whose only snapshot is unparseable loads exactly like
an empty cache directory. -/
theorem cache_parse_defaults_and_failure_witness :
    ((row_to_track_data (csv_header.zip
        ["1", "A", "T", "x", "NaN", "u", "2024-01-01", "Al", "t1"])).map
      fun e => e.track.popularity) = some (some 0) ∧
    load_liked_songs_data envWithBadCache clientOnePage 5 false =
      load_liked_songs_data
        ⟨[], envWithBadCache.contents, envWithBadCache.save_ok, envWithBadCache.now⟩
        clientOnePage 5 false := by
  constructor
  · obtain ⟨e, he, hp⟩ := cache_parse_defaults_and_failure.1
      "1" "A" "T" "x" "NaN" "u" "2024-01-01" "Al" "t1" (by decide) (by decide)
    rw [he, Option.map_some', hp]
  · exact cache_parse_defaults_and_failure.2 envWithBadCache clientOnePage 5 (by decide)

/-! ## Claim C7: snapshot write failure is harmless -/

/-- C7: on the fetch path (forced refresh, or no usable cache), a snapshot
write failure neither fails the call nor changes the returned entries or
username; only the provenance note differs between write success and
write failure. -/
theorem save_failure_harmless (files : List FileInfo)
    (contents : String → Option (List (List String))) (now : String)
    (client : SpotifyClient) (fuel : Nat) (force_refresh : Bool) (songs : List Entry)
    (hpath : force_refresh = true ∨
      load_liked_songs_from_cache (username_of client) files contents = none)
    (hfetch : (fetch_all_liked client.saved_tracks fuel 0).1 = some songs) :
    (load_liked_songs_data ⟨files, contents, true, now⟩ client fuel force_refresh).1 =
      some (songs, " (Fresh data saved to cache: " ++
        get_cache_filename (username_of client) now ++ ")", username_of client) ∧
    (load_liked_songs_data ⟨files, contents, false, now⟩ client fuel force_refresh).1 =
      some (songs, " (Fresh data from Spotify)", username_of client) := by
  rcases hpath with hforce | hcache
  · subst hforce
    constructor <;>
      simp [load_liked_songs_data, hfetch, save_liked_songs_to_cache]
  · cases force_refresh with
    | true =>
      constructor <;>
        simp [load_liked_songs_data, hfetch, save_liked_songs_to_cache]
    | false =>
      constructor <;>
        simp [load_liked_songs_data, hcache, hfetch, save_liked_songs_to_cache]

/-- C7 witness: with no cache, the same one-page client returns the same
fresh entries whether the snapshot write succeeds or fails; only the note
differs. -/
theorem save_failure_harmless_witness :
    (load_liked_songs_data ⟨[], fun _ => none, true, "20240607_080910"⟩
        clientOnePage 5 false).1 =
      some ([sampleEntry "Fresh"],
        " (Fresh data saved to cache: user-x-id1-liked-songs-20240607_080910.csv)",
        "user-x-id1") ∧
    (load_liked_songs_data ⟨[], fun _ => none, false, "20240607_080910"⟩
        clientOnePage 5 false).1 =
      some ([sampleEntry "Fresh"], " (Fresh data from Spotify)", "user-x-id1") := by
  have h := save_failure_harmless [] (fun _ => none) "20240607_080910" clientOnePage 5 false
    [sampleEntry "Fresh"] (Or.inr (by decide)) (by decide)
  exact ⟨h.1.trans (by decide), h.2.trans (by decide)⟩

/-! ## Helper lemmas: the counting dict and the stable descending sort -/

theorem count_all_spec (ks : List String) :
    FirstEncounterCounts ks (count_all ks) := by
  induction ks using List.reverseRecOn with
  | nil =>
    refine ⟨?_, ?_, ?_, ?_⟩ <;> simp [count_all]
  | append_singleton ks k ih =>
    obtain ⟨ih1, ih2, ih3, ih4⟩ := ih
    have hstep : count_all (ks ++ [k]) = count_incr (count_all ks) k := by
      simp [count_all, List.foldl_append]
    by_cases hmem : k ∈ (count_all ks).map fun p => p.1
    · have hany : (count_all ks).any (fun p => p.1 = k) = true := by
        simp only [List.any_eq_true]
        obtain ⟨p, hp, hpk⟩ := List.mem_map.mp hmem
        exact ⟨p, hp, by simp [hpk]⟩
      have hincr : count_incr (count_all ks) k =
          (count_all ks).map fun p => if p.1 = k then (p.1, p.2 + 1) else p := by
        unfold count_incr
        rw [if_pos hany]
      have hkeys : ((count_incr (count_all ks) k).map fun p => p.1) =
          (count_all ks).map fun p => p.1 := by
        rw [hincr, List.map_map]
        apply List.map_congr_left
        intro p _
        by_cases hpk : p.1 = k <;> simp [hpk]
      refine ⟨?_, ?_, ?_, ?_⟩
      · intro p hp
        rw [hstep, hincr] at hp
        obtain ⟨q, hq, hpq⟩ := List.mem_map.mp hp
        by_cases hqk : q.1 = k
        · rw [if_pos hqk] at hpq
          subst hpq
          show q.2 + 1 = (ks ++ [k]).count q.1
          rw [List.count_append, List.count_singleton, if_pos (by simp [hqk]), ih1 q hq]
        · rw [if_neg hqk] at hpq
          subst hpq
          rw [List.count_append, List.count_singleton,
            if_neg (by simp; exact fun he => hqk he.symm), ih1 q hq]
          omega
      · rw [hstep, hkeys]
        exact ih2
      · intro k'
        rw [hstep, hkeys]
        rw [ih3 k', List.mem_append]
        constructor
        · exact Or.inl
        · rintro (h | h)
          · exact h
          · simp only [List.mem_singleton] at h
            subst h
            exact (ih3 k').mp hmem
      · rw [hstep, hkeys]
        refine ih4.imp_of_mem ?_
        intro a b ha hb hab
        have haks : a ∈ ks := (ih3 a).mp ha
        have hbks : b ∈ ks := (ih3 b).mp hb
        rw [List.indexOf_append_of_mem haks, List.indexOf_append_of_mem hbks]
        exact hab
    · have hany : (count_all ks).any (fun p => p.1 = k) = false := by
        rw [List.any_eq_false]
        intro p hp
        simp only [decide_eq_true_eq]
        exact fun hpk => hmem (hpk ▸ List.mem_map_of_mem (fun p => p.1) hp)
      have hincr : count_incr (count_all ks) k = count_all ks ++ [(k, 1)] := by
        unfold count_incr
        rw [if_neg (by simp [hany])]
      have hknotin : k ∉ ks := fun hk => hmem ((ih3 k).mpr hk)
      have hkeys : ((count_all ks ++ [(k, 1)]).map fun p : String × Nat => p.1) =
          ((count_all ks).map fun p : String × Nat => p.1) ++ [k] := by
        simp
      refine ⟨?_, ?_, ?_, ?_⟩
      · intro p hp
        rw [hstep, hincr] at hp
        rcases List.mem_append.mp hp with h | h
        · have hpk : ¬ p.1 = k :=
            fun he => hmem (he ▸ List.mem_map_of_mem (fun p => p.1) h)
          rw [List.count_append, List.count_singleton,
            if_neg (by simp; exact fun he => hpk he.symm), ih1 p h]
          omega
        · simp only [List.mem_singleton] at h
          subst h
          show (1 : Nat) = (ks ++ [k]).count k
          rw [List.count_append, List.count_singleton, if_pos (by simp),
            List.count_eq_zero.mpr hknotin]
      · rw [hstep, hincr, hkeys, List.nodup_append]
        refine ⟨ih2, by simp, ?_⟩
        intro a ha hak
        simp only [List.mem_singleton] at hak
        subst hak
        exact hmem ha
      · intro k'
        rw [hstep, hincr, hkeys, List.mem_append, List.mem_append, ih3 k']
      · rw [hstep, hincr, hkeys, List.pairwise_append]
        refine ⟨?_, by simp, ?_⟩
        · refine ih4.imp_of_mem ?_
          intro a b ha hb hab
          rw [List.indexOf_append_of_mem ((ih3 a).mp ha),
            List.indexOf_append_of_mem ((ih3 b).mp hb)]
          exact hab
        · intro a ha b hb
          simp only [List.mem_singleton] at hb
          subst hb
          have haks : a ∈ ks := (ih3 a).mp ha
          rw [List.indexOf_append_of_mem haks, List.indexOf_append_of_not_mem hknotin]
          have h1 : List.indexOf a ks < ks.length := List.indexOf_lt_length.mpr haks
          exact Nat.lt_of_lt_of_le h1 (Nat.le_add_right _ _)

theorem pair_sublist_take {α : Type _} {p q : α} :
    ∀ (s : List α) (n : Nat), s.Nodup → [p, q].Sublist s → q ∈ s.take n →
      [p, q].Sublist (s.take n) := by
  intro s
  induction s with
  | nil =>
    intro n _ hsub _
    exact absurd hsub (by simp)
  | cons a s ih =>
    intro n hnd hsub hq
    have hpqneq : p ≠ q := by
      have hnd2 : [p, q].Nodup := List.Nodup.sublist hsub hnd
      simpa using (List.nodup_cons.mp hnd2).1
    cases n with
    | zero => simp at hq
    | succ n =>
      simp only [List.take_succ_cons] at hq ⊢
      cases hsub with
      | cons _ h =>
        rcases List.mem_cons.mp hq with hqa | hq'
        · subst hqa
          have hqs : q ∈ s := h.subset (by simp)
          exact absurd hqs (List.nodup_cons.mp hnd).1
        · exact (ih n (List.nodup_cons.mp hnd).2 h hq').cons a
      | cons₂ _ h =>
        rcases List.mem_cons.mp hq with hqa | hq'
        · exact absurd hqa.symm hpqneq
        · exact (List.singleton_sublist.mpr hq').cons₂ p

theorem top_table_spec (key : String × Nat → Int) (m : List (String × Nat))
    (hnd : (m.map fun p : String × Nat => p.1).Nodup) :
    ((sorted_desc key m).take 10).length = min 10 m.length ∧
    (∀ q ∈ (sorted_desc key m).take 10, q ∈ m) ∧
    ((sorted_desc key m).take 10).Pairwise (fun x y => key y ≤ key x) ∧
    (∀ p ∈ m, p ∉ (sorted_desc key m).take 10 →
      ∀ q ∈ (sorted_desc key m).take 10, key p ≤ key q) ∧
    (∀ p q, [p, q].Sublist m → key q ≤ key p → q ∈ (sorted_desc key m).take 10 →
      [p, q].Sublist ((sorted_desc key m).take 10)) := by
  letI : IsTotal (String × Nat) (fun a b => key b ≤ key a) :=
    ⟨fun a b => (Int.le_total (key a) (key b)).symm⟩
  letI : IsTrans (String × Nat) (fun a b => key b ≤ key a) :=
    ⟨fun _ _ _ hab hbc => Int.le_trans hbc hab⟩
  have hperm : (sorted_desc key m).Perm m := List.perm_insertionSort _ m
  have hsorted : (sorted_desc key m).Pairwise fun x y => key y ≤ key x :=
    List.sorted_insertionSort (fun a b => key b ≤ key a) m
  have hsnd : (sorted_desc key m).Nodup := hperm.symm.nodup (List.Nodup.of_map _ hnd)
  refine ⟨?_, ?_, ?_, ?_, ?_⟩
  · simp [hperm.length_eq]
  · intro q hq
    exact hperm.mem_iff.mp ((List.take_sublist 10 _).subset hq)
  · exact List.Pairwise.sublist (List.take_sublist 10 _) hsorted
  · intro p hp hnot q hq
    have hps : p ∈ (sorted_desc key m).take 10 ++ (sorted_desc key m).drop 10 := by
      rw [List.take_append_drop]
      exact hperm.mem_iff.mpr hp
    have hpd : p ∈ (sorted_desc key m).drop 10 := by
      rcases List.mem_append.mp hps with h | h
      · exact absurd h hnot
      · exact h
    have hsplit := hsorted
    rw [← List.take_append_drop 10 (sorted_desc key m), List.pairwise_append] at hsplit
    exact hsplit.2.2 q hq p hpd
  · intro p q hsubm hkey hq
    have hps : [p, q].Sublist (sorted_desc key m) :=
      List.pair_sublist_insertionSort hkey hsubm
    exact pair_sublist_take _ 10 hsnd hps hq

theorem top_table_spec_nat (m : List (String × Nat))
    (hnd : (m.map fun p : String × Nat => p.1).Nodup) :
    TopTenByCount m ((sorted_desc (fun p => (p.2 : Int)) m).take 10) := by
  obtain ⟨h1, h2, h3, h4, h5⟩ := top_table_spec (fun p => (p.2 : Int)) m hnd
  refine ⟨h1, h2, ?_, ?_, ?_⟩
  · exact h3.imp fun h => by exact_mod_cast h
  · intro p hp hnot q hq
    exact_mod_cast h4 p hp hnot q hq
  · intro p q hs hk hq
    exact h5 p q hs (by exact_mod_cast hk) hq

theorem annotate_years_spec :
    ∀ {yc : List (String × Nat)} {keyed : List (Int × (String × Nat))},
      annotate_years yc = some keyed →
      keyed.map (fun q => q.2) = yc ∧ ∀ q ∈ keyed, pyInt? q.2.1 = some q.1 := by
  intro yc
  induction yc with
  | nil =>
    intro keyed h
    simp only [annotate_years, Option.some.injEq] at h
    subst h
    simp
  | cons p rest ih =>
    intro keyed h
    simp only [annotate_years, Option.bind_eq_bind] at h
    cases hy : pyInt? p.1 with
    | none =>
      rw [hy] at h
      simp at h
    | some y =>
      rw [hy] at h
      cases hr : annotate_years rest with
      | none =>
        rw [hr] at h
        simp at h
      | some ann =>
        rw [hr] at h
        simp only [Option.some_bind] at h
        have hk : keyed = (y, p) :: ann := by simpa using h.symm
        subst hk
        obtain ⟨ih1, ih2⟩ := ih hr
        constructor
        · simp [ih1]
        · intro q hq
          rcases List.mem_cons.mp hq with h1 | h1
          · subst h1
            simpa using hy
          · exact ih2 q h1

theorem annotate_years_isSome {yc : List (String × Nat)}
    (h : ∀ p ∈ yc, (pyInt? p.1).isSome = true) :
    ∃ keyed, annotate_years yc = some keyed := by
  induction yc with
  | nil => exact ⟨[], rfl⟩
  | cons p rest ih =>
    obtain ⟨keyed, hk⟩ := ih fun q hq => h q (List.mem_cons_of_mem p hq)
    obtain ⟨y, hy⟩ := Option.isSome_iff_exists.mp (h p (List.mem_cons_self p rest))
    exact ⟨(y, p) :: keyed, by simp [annotate_years, hy, hk]⟩

theorem year_table_top (yc : List (String × Nat)) (keyed : List (Int × (String × Nat)))
    (hann : annotate_years yc = some keyed)
    (hnd : (yc.map fun p : String × Nat => p.1).Nodup) :
    TopTenByYear yc
      (((sorted_desc (fun q : Int × (String × Nat) => q.1) keyed).map fun q => q.2).take 10) := by
  obtain ⟨hmap, hq⟩ := annotate_years_spec hann
  letI : IsTotal (Int × (String × Nat)) (fun a b => b.1 ≤ a.1) :=
    ⟨fun a b => (Int.le_total a.1 b.1).symm⟩
  letI : IsTrans (Int × (String × Nat)) (fun a b => b.1 ≤ a.1) :=
    ⟨fun _ _ _ hab hbc => Int.le_trans hbc hab⟩
  have hperm : (sorted_desc (fun q : Int × (String × Nat) => q.1) keyed).Perm keyed :=
    List.perm_insertionSort _ keyed
  have hsorted : (sorted_desc (fun q : Int × (String × Nat) => q.1) keyed).Pairwise
      fun x y => y.1 ≤ x.1 :=
    List.sorted_insertionSort _ keyed
  have hycnd : yc.Nodup := List.Nodup.of_map _ hnd
  have hkey : ∀ r ∈ keyed, yearKey r.2 = r.1 := by
    intro r hr
    simp [yearKey, hq r hr]
  have hmapt : ((sorted_desc (fun q : Int × (String × Nat) => q.1) keyed).map
      fun q => q.2).take 10 =
      ((sorted_desc (fun q : Int × (String × Nat) => q.1) keyed).take 10).map
        fun q => q.2 :=
    (List.map_take _ _ _).symm
  refine ⟨?_, ?_, ?_, ?_⟩
  · rw [hmapt]
    simp only [List.length_map, List.length_take, hperm.length_eq]
    rw [← hmap, List.length_map]
  · intro q hqt
    rw [hmapt] at hqt
    obtain ⟨r, hr, rfl⟩ := List.mem_map.mp hqt
    have hrk : r ∈ keyed := hperm.mem_iff.mp ((List.take_sublist 10 _).subset hr)
    rw [← hmap]
    exact List.mem_map_of_mem _ hrk
  · rw [hmapt, List.pairwise_map]
    have htake : ((sorted_desc (fun q : Int × (String × Nat) => q.1) keyed).take 10).Pairwise
        fun x y => y.1 ≤ x.1 :=
      List.Pairwise.sublist (List.take_sublist 10 _) hsorted
    refine htake.imp_of_mem ?_
    intro a b ha hb hab
    have hak : a ∈ keyed := hperm.mem_iff.mp ((List.take_sublist 10 _).subset ha)
    have hbk : b ∈ keyed := hperm.mem_iff.mp ((List.take_sublist 10 _).subset hb)
    rw [hkey a hak, hkey b hbk]
    exact hab
  · intro p hp hnot q hqt
    rw [← hmap] at hp
    obtain ⟨pk, hpk, rfl⟩ := List.mem_map.mp hp
    rw [hmapt] at hqt hnot
    obtain ⟨qk, hqk, rfl⟩ := List.mem_map.mp hqt
    have hpks : pk ∈ sorted_desc (fun q : Int × (String × Nat) => q.1) keyed :=
      hperm.mem_iff.mpr hpk
    have hpknot : pk ∉ (sorted_desc (fun q : Int × (String × Nat) => q.1) keyed).take 10 :=
      fun hmem => hnot (List.mem_map_of_mem _ hmem)
    have hpkd : pk ∈ (sorted_desc (fun q : Int × (String × Nat) => q.1) keyed).drop 10 := by
      have hx : pk ∈ (sorted_desc (fun q : Int × (String × Nat) => q.1) keyed).take 10 ++
          (sorted_desc (fun q : Int × (String × Nat) => q.1) keyed).drop 10 := by
        rw [List.take_append_drop]
        exact hpks
      rcases List.mem_append.mp hx with h | h
      · exact absurd h hpknot
      · exact h
    have hsplit := hsorted
    rw [← List.take_append_drop 10 (sorted_desc (fun q : Int × (String × Nat) => q.1) keyed),
      List.pairwise_append] at hsplit
    have hrel := hsplit.2.2 qk hqk pk hpkd
    rw [hkey pk hpk, hkey qk (hperm.mem_iff.mp ((List.take_sublist 10 _).subset hqk))]
    exact hrel

theorem analyze_music_taste_eq {artist_genres : String → List String} {tracks : List Entry}
    {limit : Nat} {a : Analysis}
    (h : analyze_music_taste artist_genres tracks limit = some a) :
    ∃ keyed, annotate_years (count_all (year_keys (tracks.take limit))) = some keyed ∧
      a = { top_genres := (sorted_desc (fun p => (p.2 : Int))
              (count_all (genre_keys artist_genres (tracks.take limit)))).take 10
            top_artists := (sorted_desc (fun p => (p.2 : Int))
              (count_all (artist_keys (tracks.take limit)))).take 10
            top_albums := (sorted_desc (fun p => (p.2 : Int))
              (count_all (album_keys (tracks.take limit)))).take 10
            top_years := ((sorted_desc (fun q : Int × (String × Nat) => q.1) keyed).map
              fun q => q.2).take 10
            total_tracks_analyzed := (tracks.take limit).length
            total_tracks := tracks.length } := by
  by_cases hemp : tracks.isEmpty
  · simp only [analyze_music_taste, if_pos hemp] at h
    exact absurd h (by simp)
  · simp only [analyze_music_taste, if_neg hemp] at h
    cases hann : annotate_years (count_all (year_keys (tracks.take limit))) with
    | none =>
      rw [hann] at h
      exact absurd h (by simp)
    | some keyed =>
      rw [hann] at h
      exact ⟨keyed, rfl, (Option.some.inj h).symm⟩

/-! ## Claim C8: the top-ten tables of the analysis -/

/-- C8 counterexample: the release-year table is NOT ordered by descending
count — with year counts 1999 ↦ 5 (encountered first) and 2000 ↦ 1, the
code returns the year 2000 entry (count 1) first, because line 468 sorts by
int(year), not by count; so the claim is false for the year table. -/
theorem analyze_years_counterexample :
    (analyze_music_taste (fun _ => []) tracksYears 50).map (fun a => a.top_years) =
      some [("2000", 1), ("1999", 5)] ∧
    ¬ ([(("2000" : String), (1 : Nat)), ("1999", 5)].Pairwise fun x y => y.2 ≤ x.2) := by
  decide

/-- C8 (amended): whenever analyze_music_taste returns an aggregate, the
genre, artist and album tables are the frequency tables of the analyzed
prefix (keys in first-encounter order) truncated to the top 10 by
descending count with ties kept in first-encounter order, while the
release-year table is the year frequency table truncated to the top 10 by
descending numeric year (not by count); and on genre counts pop ↦ 5
(first), rock ↦ 5, jazz ↦ 1 the top genre is pop. -/
theorem analyze_top_tables :
    (∀ (artist_genres : String → List String) (tracks : List Entry) (limit : Nat)
        (a : Analysis),
      analyze_music_taste artist_genres tracks limit = some a →
      (FirstEncounterCounts (genre_keys artist_genres (tracks.take limit))
          (count_all (genre_keys artist_genres (tracks.take limit))) ∧
        TopTenByCount (count_all (genre_keys artist_genres (tracks.take limit)))
          a.top_genres) ∧
      (FirstEncounterCounts (artist_keys (tracks.take limit))
          (count_all (artist_keys (tracks.take limit))) ∧
        TopTenByCount (count_all (artist_keys (tracks.take limit))) a.top_artists) ∧
      (FirstEncounterCounts (album_keys (tracks.take limit))
          (count_all (album_keys (tracks.take limit))) ∧
        TopTenByCount (count_all (album_keys (tracks.take limit))) a.top_albums) ∧
      (FirstEncounterCounts (year_keys (tracks.take limit))
          (count_all (year_keys (tracks.take limit))) ∧
        TopTenByYear (count_all (year_keys (tracks.take limit))) a.top_years)) ∧
    (analyze_music_taste genresPopRockJazz tracksPopRock 50).map
      (fun a => a.top_genres.head?) = some (some ("pop", 5)) := by
  constructor
  · intro artist_genres tracks limit a ha
    obtain ⟨keyed, hann, rfl⟩ := analyze_music_taste_eq ha
    have hg := count_all_spec (genre_keys artist_genres (tracks.take limit))
    have har := count_all_spec (artist_keys (tracks.take limit))
    have hal := count_all_spec (album_keys (tracks.take limit))
    have hy := count_all_spec (year_keys (tracks.take limit))
    exact ⟨⟨hg, top_table_spec_nat _ hg.2.1⟩,
           ⟨har, top_table_spec_nat _ har.2.1⟩,
           ⟨hal, top_table_spec_nat _ hal.2.1⟩,
           ⟨hy, year_table_top _ keyed hann hy.2.1⟩⟩
  · decide

/-- C8 witness: the amended statement applied to the concrete pop/rock/jazz
input, recovering the genre table [("pop", 5), ("rock", 5), ("jazz", 1)]. -/
theorem analyze_top_tables_witness :
    TopTenByCount (count_all (genre_keys genresPopRockJazz (tracksPopRock.take 50)))
      [("pop", 5), ("rock", 5), ("jazz", 1)] := by
  have h := analyze_top_tables.1 genresPopRockJazz tracksPopRock 50
    { top_genres := [("pop", 5), ("rock", 5), ("jazz", 1)]
      top_artists := [("Xa1", 5), ("Xa2", 5), ("Xa3", 1)]
      top_albums := [("Al", 11)]
      top_years := []
      total_tracks_analyzed := 11
      total_tracks := 11 } (by decide)
  exact h.1.2

/-! ## Claim C10: empty input and the analyzed-track total -/

/-- C10 counterexample: a non-empty track list can fail to yield an
aggregate — a track whose truthy release_date does not start with a numeric
year makes int(year) on line 468 raise ValueError (modelled as the none
result), so "every non-empty list yields an aggregate" is false. -/
theorem analyze_nonempty_counterexample :
    ([entryBadYear] : List Entry) ≠ [] ∧
    analyze_music_taste (fun _ => []) [entryBadYear] 50 = none := by decide

/-- C10 (amended): analyze_music_taste returns none on the empty track list
(rather than a zero-count aggregate), and every non-empty list whose counted
release years all parse as integers yields an aggregate whose
total_tracks_analyzed is min(limit, length) and whose total_tracks is the
input length. -/
theorem analyze_empty_none_and_total :
    (∀ (artist_genres : String → List String) (limit : Nat),
      analyze_music_taste artist_genres [] limit = none) ∧
    (∀ (artist_genres : String → List String) (tracks : List Entry) (limit : Nat),
      tracks ≠ [] →
      (∀ y ∈ year_keys (tracks.take limit), (pyInt? y).isSome = true) →
      ∃ a, analyze_music_taste artist_genres tracks limit = some a ∧
        a.total_tracks_analyzed = min limit tracks.length ∧
        a.total_tracks = tracks.length) := by
  constructor
  · intro artist_genres limit
    rfl
  · intro artist_genres tracks limit hne hyears
    have hys : ∀ p ∈ count_all (year_keys (tracks.take limit)),
        (pyInt? p.1).isSome = true := by
      intro p hp
      exact hyears p.1 (((count_all_spec (year_keys (tracks.take limit))).2.2.1 p.1).mp
        (List.mem_map_of_mem _ hp))
    obtain ⟨keyed, hk⟩ := annotate_years_isSome hys
    have hmain : analyze_music_taste artist_genres tracks limit = some
        { top_genres := (sorted_desc (fun p => (p.2 : Int))
            (count_all (genre_keys artist_genres (tracks.take limit)))).take 10
          top_artists := (sorted_desc (fun p => (p.2 : Int))
            (count_all (artist_keys (tracks.take limit)))).take 10
          top_albums := (sorted_desc (fun p => (p.2 : Int))
            (count_all (album_keys (tracks.take limit)))).take 10
          top_years := ((sorted_desc (fun q : Int × (String × Nat) => q.1) keyed).map
            fun q => q.2).take 10
          total_tracks_analyzed := (tracks.take limit).length
          total_tracks := tracks.length } := by
      simp only [analyze_music_taste]
      rw [hk, if_neg (show ¬ tracks.isEmpty = true by simpa [List.isEmpty_iff] using hne)]
    exact ⟨_, hmain, by simp [List.length_take], rfl⟩

/-- C10 witness: the amended statement at a concrete eleven-track list with
limit 7 yields an aggregate with total_tracks_analyzed = 7 = min 7 11. -/
theorem analyze_empty_none_and_total_witness :
    (analyze_music_taste genresPopRockJazz tracksPopRock 7).map
      (fun a => a.total_tracks_analyzed) = some 7 := by
  obtain ⟨a, ha, ht, -⟩ := analyze_empty_none_and_total.2 genresPopRockJazz tracksPopRock 7
    (by decide) (by decide)
  rw [ha, Option.map_some', ht]
  decide

end SpotifyTool
